import Mathlib

/-!
SimpleLogger: a shallow embedding of `Logger.h` / `Logger.cpp`

The process-wide configuration (five atomic cells), the line formatter
(`MessageTypeToString`, `PrintInfos`), the `Logger` record (constructor,
`operator<<`, destructor) and the statement constructs of `Logger.h`
(`LOG_*`, `DEBUG_LOG_*`, `CHECK_*`) are modelled as executable functions over
an explicit program state.

Conventions of the embedding

* `uint32_t` values (masks and enum values) are natural numbers; the only
  arithmetic performed on them is bitwise AND, which cannot overflow.
* A `std::ostream` is identified by a natural number (its address) and its
  observable state is the list of text chunks inserted into it so far.
* The clock (`GetTimeStamp`) and `std::this_thread::get_id()` are external:
  the texts they yield are read from an environment `Env`.
* Expressions written by the caller (appended values, guard conditions) may
  have side effects on the caller's own state `σ`.
* `calls` is a ghost trace of the calls made into `Logger.cpp`.
-/

namespace SimpleLog

/-! ## Data model -/

/-- Identity of a `std::ostream` object. -/
abbrev Stream := Nat

/-- The stream `std::cout`. -/
def cout : Stream := 0

/-- The stream `std::cerr`. -/
def cerr : Stream := 1

namespace LogInfos

/-- Enumerator `LogInfos::ThreadId = 0x1`. -/
def ThreadId : Nat := 0x1

/-- Enumerator `LogInfos::TimeStamp = 0x2`. -/
def TimeStamp : Nat := 0x2

/-- Enumerator `LogInfos::FileNameWithLine = 0x4`. -/
def FileNameWithLine : Nat := 0x4

end LogInfos

namespace LogMessageType

/-- Enumerator `LogMessageType::Error = 0x1`. -/
def Error : Nat := 0x1

/-- Enumerator `LogMessageType::Warning = 0x2`. -/
def Warning : Nat := 0x2

/-- Enumerator `LogMessageType::Info = 0x4`. -/
def Info : Nat := 0x4

/-- Enumerator `LogMessageType::FatalError = 0x8`. -/
def FatalError : Nat := 0x8

end LogMessageType

namespace LogType

/-- Enumerator `LogType::Debug = 1`. -/
def Debug : Nat := 1

/-- Enumerator `LogType::Release = 2`. -/
def Release : Nat := 2

end LogType

/-- The five atomic cells of the anonymous namespace of `Logger.cpp`. -/
structure Config where
  log_type_ : Nat
  log_infos_ : Nat
  log_message_types_ : Nat
  log_stream_ : Stream
  elog_stream_ : Stream
  deriving DecidableEq, Repr

/-- Initial values of the five cells; `ndebug` tells whether `NDEBUG` is defined. -/
def Config.initial (ndebug : Bool) : Config :=
  { log_type_ := if ndebug then LogType.Release else LogType.Debug
    log_infos_ := LogInfos.ThreadId ||| LogInfos.FileNameWithLine ||| LogInfos.TimeStamp
    log_message_types_ := LogMessageType.Error ||| LogMessageType.Info |||
      LogMessageType.Warning ||| LogMessageType.FatalError
    log_stream_ := cout
    elog_stream_ := cerr }

/-- Functions of `Logger.cpp` whose calls are recorded in the ghost trace. -/
inductive Call
  | GetLogType
  | SetLogType
  | GetLogMessageTypes
  | SetLogMessageTypes
  | GetLogInfos
  | SetLogInfos
  | GetLogStream
  | SetLogStream
  | GetELogStream
  | SetELogStream
  | LoggerCtor
  | LoggerDtor
  deriving DecidableEq, Repr

/-- What the formatter reads from outside the program: the text `GetTimeStamp`
leaves in its buffer and the text of `std::this_thread::get_id()`. -/
structure Env where
  time_stamp : String
  thread_id : String
  deriving DecidableEq, Repr

/-- Program state: configuration cells, content of every stream (the chunks
inserted so far, oldest first), the caller's own state and the ghost trace. -/
structure World (σ : Type) where
  cfg : Config
  sinks : Stream → List String
  user : σ
  calls : List Call

/-- Append one entry to the ghost trace. -/
def World.record {σ : Type} (w : World σ) (c : Call) : World σ :=
  { w with calls := w.calls ++ [c] }

/-- Insert one chunk of text into a stream (`out << text`). -/
def World.write {σ : Type} (w : World σ) (out : Stream) (text : String) : World σ :=
  { w with sinks := fun s => if s = out then w.sinks s ++ [text] else w.sinks s }

/-- The text a stream holds: its chunks, concatenated. -/
def World.content {σ : Type} (w : World σ) (s : Stream) : String :=
  String.join (w.sinks s)

/-- Values that can be appended to a record, with the default formatting of
`std::ostream`. -/
inductive Value
  | str (s : String)
  | int (i : Int)
  | chr (c : Char)
  | bool (b : Bool)
  deriving DecidableEq, Repr

/-- Text that `ss_ << value` inserts (decimal integers, `1`/`0` for `bool`). -/
def stringify : Value → String
  | Value.str s => s
  | Value.int i => toString i
  | Value.chr c => String.singleton c
  | Value.bool b => if b then "1" else "0"

/-! ## Configuration accessors (`Logger.cpp`, lines 83-131) -/

/-- Source: `LogType GetLogType()`. -/
def GetLogType {σ : Type} (w : World σ) : Nat × World σ :=
  (w.cfg.log_type_, w.record Call.GetLogType)

/-- Source: `void SetLogType(const LogType log_type)`. -/
def SetLogType {σ : Type} (log_type : Nat) (w : World σ) : World σ :=
  { w with cfg := { w.cfg with log_type_ := log_type }, calls := w.calls ++ [Call.SetLogType] }

/-- Source: `uint32_t GetLogMessageTypes()`. -/
def GetLogMessageTypes {σ : Type} (w : World σ) : Nat × World σ :=
  (w.cfg.log_message_types_, w.record Call.GetLogMessageTypes)

/-- Source: `void SetLogMessageTypes(const uint32_t log_message_types)`. -/
def SetLogMessageTypes {σ : Type} (log_message_types : Nat) (w : World σ) : World σ :=
  { w with cfg := { w.cfg with log_message_types_ := log_message_types },
           calls := w.calls ++ [Call.SetLogMessageTypes] }

/-- Source: `uint32_t GetLogInfos()`. -/
def GetLogInfos {σ : Type} (w : World σ) : Nat × World σ :=
  (w.cfg.log_infos_, w.record Call.GetLogInfos)

/-- Source: `void SetLogInfos(const uint32_t log_infos)`. -/
def SetLogInfos {σ : Type} (log_infos : Nat) (w : World σ) : World σ :=
  { w with cfg := { w.cfg with log_infos_ := log_infos }, calls := w.calls ++ [Call.SetLogInfos] }

/-- Source: `std::ostream& GetLogStream()`. -/
def GetLogStream {σ : Type} (w : World σ) : Stream × World σ :=
  (w.cfg.log_stream_, w.record Call.GetLogStream)

/-- Source: `void SetLogStream(std::ostream& stream)`. -/
def SetLogStream {σ : Type} (stream : Stream) (w : World σ) : World σ :=
  { w with cfg := { w.cfg with log_stream_ := stream }, calls := w.calls ++ [Call.SetLogStream] }

/-- Source: `std::ostream& GetELogStream()`. -/
def GetELogStream {σ : Type} (w : World σ) : Stream × World σ :=
  (w.cfg.elog_stream_, w.record Call.GetELogStream)

/-- Source: `void SetELogStream(std::ostream& stream)`. -/
def SetELogStream {σ : Type} (stream : Stream) (w : World σ) : World σ :=
  { w with cfg := { w.cfg with elog_stream_ := stream }, calls := w.calls ++ [Call.SetELogStream] }

/-! ## Line formatter (`Logger.cpp`, lines 31-79) -/

/-- The static table `type_to_string` of `MessageTypeToString`. -/
def type_to_string : List (Nat × String) :=
  [(LogMessageType.Info, "I"), (LogMessageType.Warning, "W"),
   (LogMessageType.Error, "E"), (LogMessageType.FatalError, "F")]

/-- Source: `std::string MessageTypeToString(const LogMessageType message_type)`:
table lookup, `"I"` when the key is absent. -/
def MessageTypeToString (message_type : Nat) : String :=
  match type_to_string.lookup message_type with
  | some s => s
  | none => "I"

/-- Source: `void PrintInfos(std::stringstream& ss, message_type, file_name, line)`:
returns the new content of `ss`. -/
def PrintInfos {σ : Type} (env : Env) (ss : String) (message_type : Nat)
    (file_name : String) (line : Int) (w : World σ) : String × World σ :=
  let (type, w1) := GetLogInfos w
  let ss1 := ss ++ "[" ++ MessageTypeToString message_type ++ "]"
  if type = 0 then (ss1, w1)
  else
    let ss2 := if type &&& LogInfos.TimeStamp ≠ 0
      then ss1 ++ "[(GMT)" ++ env.time_stamp ++ "]" else ss1
    let ss3 := if type &&& LogInfos.ThreadId ≠ 0
      then ss2 ++ "[" ++ env.thread_id ++ "]" else ss2
    let ss4 := if type &&& LogInfos.FileNameWithLine ≠ 0
      then ss3 ++ "[" ++ file_name ++ ":" ++ toString line ++ "]" else ss3
    (ss4, w1)

/-! ## The record (`class Logger`) -/

/-- Data members of `class Logger`: the buffer `ss_` and the bound stream `out_str_`. -/
structure Logger where
  ss_ : String
  out_str_ : Stream
  deriving DecidableEq, Repr

/-- Source: `Logger::Logger(out_str, message_type, file_name, line)`. -/
def Logger.ctor {σ : Type} (env : Env) (out_str : Stream) (message_type : Nat)
    (file_name : String) (line : Int) (w : World σ) : Logger × World σ :=
  let (ss, w1) := PrintInfos env "" message_type file_name line (w.record Call.LoggerCtor)
  ({ ss_ := ss ++ "$ ", out_str_ := out_str }, w1)

/-- Source: `Logger& Logger::operator<<(const T& value)`: the returned reference is the
record itself, so the result is the updated record. -/
def Logger.shl (l : Logger) (value : Value) : Logger :=
  { l with ss_ := l.ss_ ++ stringify value }

/-- Source: `Logger::~Logger()`. -/
def Logger.dtor {σ : Type} (l : Logger) (w : World σ) : World σ :=
  let ss := l.ss_ ++ "\n"
  (w.record Call.LoggerDtor).write l.out_str_ ss

/-! ## Log statements (`Logger.h`, lines 74-94) -/

/-- An expression appended with `<<`: evaluating it yields a value and may
change the caller's state. -/
abbrev Arg (σ : Type) := σ → Value × σ

/-- An argument without side effects, such as a literal. -/
def Arg.pure {σ : Type} (v : Value) : Arg σ := fun u => (v, u)

/-- The chain `record << a1 << ... << an`: each operand is evaluated, then
appended, left to right. -/
def Logger.shlAll {σ : Type} (l : Logger) : List (Arg σ) → World σ → Logger × World σ
  | [], w => (l, w)
  | a :: rest, w =>
    Logger.shlAll (l.shl (a w.user).1) rest { w with user := (a w.user).2 }

/-- Source: `LOG_MESSAGE_PRIVATE(ss, m) << args;` at source location `file:line`:
`if ((static_cast<uint32_t>(m) & GetLogMessageTypes()) != 0) Logger(ss, m, __FILE__, __LINE__)`
followed by the appended operands; the temporary is destroyed at the end of
the statement. `ss` is the stream getter written at the call site. -/
def LOG_MESSAGE_PRIVATE {σ : Type} (ss : World σ → Stream × World σ) (m : Nat)
    (env : Env) (file : String) (line : Int) (args : List (Arg σ)) (w : World σ) : World σ :=
  let types := GetLogMessageTypes w
  if m &&& types.1 ≠ 0 then
    let out := ss types.2
    let l := Logger.ctor env out.1 m file line out.2
    let l1 := l.1.shlAll args l.2
    l1.1.dtor l1.2
  else types.2

/-- Source: `LOG_FATAL_ERROR << args;`. -/
def LOG_FATAL_ERROR {σ : Type} (env : Env) (file : String) (line : Int)
    (args : List (Arg σ)) (w : World σ) : World σ :=
  LOG_MESSAGE_PRIVATE GetELogStream LogMessageType.FatalError env file line args w

/-- Source: `LOG_ERROR << args;`. -/
def LOG_ERROR {σ : Type} (env : Env) (file : String) (line : Int)
    (args : List (Arg σ)) (w : World σ) : World σ :=
  LOG_MESSAGE_PRIVATE GetELogStream LogMessageType.Error env file line args w

/-- Source: `LOG_WARNING << args;`. -/
def LOG_WARNING {σ : Type} (env : Env) (file : String) (line : Int)
    (args : List (Arg σ)) (w : World σ) : World σ :=
  LOG_MESSAGE_PRIVATE GetLogStream LogMessageType.Warning env file line args w

/-- Source: `LOG_INFO << args;`. -/
def LOG_INFO {σ : Type} (env : Env) (file : String) (line : Int)
    (args : List (Arg σ)) (w : World σ) : World σ :=
  LOG_MESSAGE_PRIVATE GetLogStream LogMessageType.Info env file line args w

/-- Source: `LOG_DEBUG_MESSAGE_PRIVATE(ss, m) << args;`:
`if (LogType::Debug == GetLogType()) LOG_MESSAGE_PRIVATE(ss, m)`. -/
def LOG_DEBUG_MESSAGE_PRIVATE {σ : Type} (ss : World σ → Stream × World σ) (m : Nat)
    (env : Env) (file : String) (line : Int) (args : List (Arg σ)) (w : World σ) : World σ :=
  let type := GetLogType w
  if LogType.Debug = type.1 then LOG_MESSAGE_PRIVATE ss m env file line args type.2
  else type.2

/-- Source: `DEBUG_LOG_ERROR << args;`. -/
def DEBUG_LOG_ERROR {σ : Type} (env : Env) (file : String) (line : Int)
    (args : List (Arg σ)) (w : World σ) : World σ :=
  LOG_DEBUG_MESSAGE_PRIVATE GetELogStream LogMessageType.Error env file line args w

/-- Source: `DEBUG_LOG_WARNING << args;`. -/
def DEBUG_LOG_WARNING {σ : Type} (env : Env) (file : String) (line : Int)
    (args : List (Arg σ)) (w : World σ) : World σ :=
  LOG_DEBUG_MESSAGE_PRIVATE GetLogStream LogMessageType.Warning env file line args w

/-- Source: `DEBUG_LOG_INFO << args;`. -/
def DEBUG_LOG_INFO {σ : Type} (env : Env) (file : String) (line : Int)
    (args : List (Arg σ)) (w : World σ) : World σ :=
  LOG_DEBUG_MESSAGE_PRIVATE GetLogStream LogMessageType.Info env file line args w

/-- The seven log statements of `Logger.h`. -/
inductive LogStatement
  | fatal_error
  | error
  | warning
  | info
  | debug_error
  | debug_warning
  | debug_info
  deriving DecidableEq, Repr

/-- The statement each name stands for. -/
def LogStatement.run {σ : Type} : LogStatement → Env → String → Int → List (Arg σ) →
    World σ → World σ
  | LogStatement.fatal_error => LOG_FATAL_ERROR
  | LogStatement.error => LOG_ERROR
  | LogStatement.warning => LOG_WARNING
  | LogStatement.info => LOG_INFO
  | LogStatement.debug_error => DEBUG_LOG_ERROR
  | LogStatement.debug_warning => DEBUG_LOG_WARNING
  | LogStatement.debug_info => DEBUG_LOG_INFO

/-! ## Guard constructs (`Logger.h`, lines 96-146) -/

/-- What a `throw` statement of the guard constructs raises:
`std::runtime_error(message)` or a caller-supplied object. -/
inductive Exception (ε : Type)
  | runtime_error (what : String)
  | custom (exc : ε)
  deriving DecidableEq, Repr

/-- How a statement ends: control reaches the next statement, or leaves by
`return` (with or without a value), `continue`, `break` or `throw`. -/
inductive Flow (ρ ε : Type)
  | next
  | ret (v : Option ρ)
  | cont
  | brk
  | throw (e : Exception ε)
  deriving DecidableEq, Repr

/-- A statement of the enclosing function. -/
abbrev Stmt (σ ρ ε : Type) := World σ → Flow ρ ε × World σ

/-- A sequence of statements: the next one runs only when the previous one
ended normally. -/
def runBlock {σ ρ ε : Type} : List (Stmt σ ρ ε) → World σ → Flow ρ ε × World σ
  | [], w => (Flow.next, w)
  | s :: rest, w =>
    match s w with
    | (Flow.next, w1) => runBlock rest w1
    | (f, w1) => (f, w1)

/-- The `condition` parameter of a guard: the spelling the preprocessor
stringifies with `#` and the expression evaluated at run time. -/
structure Condition (σ : Type) where
  text : String
  eval : σ → Bool × σ

/-- Source: `PRIVATE_IF_CONDITION(condition) body`: `if (!(condition)) body`. -/
def PRIVATE_IF_CONDITION {σ ρ ε : Type} (condition : Condition σ) (body : Stmt σ ρ ε)
    (w : World σ) : Flow ρ ε × World σ :=
  let c := condition.eval w.user
  if !c.1 then body { w with user := c.2 } else (Flow.next, { w with user := c.2 })

/-- Source: `CHECK_RETURN(condition, ...)`. -/
def CHECK_RETURN {σ ρ ε : Type} (condition : Condition σ) (v : Option ρ) : Stmt σ ρ ε :=
  PRIVATE_IF_CONDITION condition (fun w => (Flow.ret v, w))

/-- Source: `CHECK_CONTINUE(condition)`. -/
def CHECK_CONTINUE {σ ρ ε : Type} (condition : Condition σ) : Stmt σ ρ ε :=
  PRIVATE_IF_CONDITION condition (fun w => (Flow.cont, w))

/-- Source: `CHECK_BREAK(condition)`. -/
def CHECK_BREAK {σ ρ ε : Type} (condition : Condition σ) : Stmt σ ρ ε :=
  PRIVATE_IF_CONDITION condition (fun w => (Flow.brk, w))

/-- Source: `CHECK_THROW(condition, message)`. -/
def CHECK_THROW {σ ρ ε : Type} (condition : Condition σ) (message : String) : Stmt σ ρ ε :=
  PRIVATE_IF_CONDITION condition (fun w => (Flow.throw (Exception.runtime_error message), w))

/-- Source: `CHECK_CUSTOM_THROW(condition, exc)`. -/
def CHECK_CUSTOM_THROW {σ ρ ε : Type} (condition : Condition σ) (exc : ε) : Stmt σ ρ ε :=
  PRIVATE_IF_CONDITION condition (fun w => (Flow.throw (Exception.custom exc), w))

/-- Source: `PRIVATE_CHECK(condition, out_stream, message, action)`:
`if (!(condition)) { out_stream << message; action; } do {} while(false)`.
`out_stream` is one of the log statements, `action` a jump statement. -/
def PRIVATE_CHECK {σ ρ ε : Type} (condition : Condition σ)
    (out_stream : List (Arg σ) → World σ → World σ) (message : Arg σ)
    (action : Flow ρ ε) : Stmt σ ρ ε :=
  PRIVATE_IF_CONDITION condition (fun w => (action, out_stream [message] w))

/-- Source: `PRIVATE_ADD_EQUAL_FALSE(arg1)`: `#arg1 " = false"`. -/
def PRIVATE_ADD_EQUAL_FALSE (arg1 : String) : String :=
  arg1 ++ " = false"

/-- Source: `CHECK_FLOG_RETURN(condition, message, ...)`. -/
def CHECK_FLOG_RETURN {σ ρ ε : Type} (env : Env) (file : String) (line : Int)
    (condition : Condition σ) (message : Arg σ) (v : Option ρ) : Stmt σ ρ ε :=
  PRIVATE_CHECK condition (LOG_FATAL_ERROR env file line) message (Flow.ret v)

/-- Source: `CHECK_ELOG_RETURN(condition, message, ...)`. -/
def CHECK_ELOG_RETURN {σ ρ ε : Type} (env : Env) (file : String) (line : Int)
    (condition : Condition σ) (message : Arg σ) (v : Option ρ) : Stmt σ ρ ε :=
  PRIVATE_CHECK condition (LOG_ERROR env file line) message (Flow.ret v)

/-- Source: `CHECK_WLOG_RETURN(condition, message, ...)`. -/
def CHECK_WLOG_RETURN {σ ρ ε : Type} (env : Env) (file : String) (line : Int)
    (condition : Condition σ) (message : Arg σ) (v : Option ρ) : Stmt σ ρ ε :=
  PRIVATE_CHECK condition (LOG_WARNING env file line) message (Flow.ret v)

/-- Source: `CHECK_ILOG_RETURN(condition, message, ...)`. -/
def CHECK_ILOG_RETURN {σ ρ ε : Type} (env : Env) (file : String) (line : Int)
    (condition : Condition σ) (message : Arg σ) (v : Option ρ) : Stmt σ ρ ε :=
  PRIVATE_CHECK condition (LOG_INFO env file line) message (Flow.ret v)

/-- Source: `CHECK_DELOG_RETURN(condition, message, ...)`. -/
def CHECK_DELOG_RETURN {σ ρ ε : Type} (env : Env) (file : String) (line : Int)
    (condition : Condition σ) (message : Arg σ) (v : Option ρ) : Stmt σ ρ ε :=
  PRIVATE_CHECK condition (DEBUG_LOG_ERROR env file line) message (Flow.ret v)

/-- Source: `CHECK_DWLOG_RETURN(condition, message, ...)`. -/
def CHECK_DWLOG_RETURN {σ ρ ε : Type} (env : Env) (file : String) (line : Int)
    (condition : Condition σ) (message : Arg σ) (v : Option ρ) : Stmt σ ρ ε :=
  PRIVATE_CHECK condition (DEBUG_LOG_WARNING env file line) message (Flow.ret v)

/-- Source: `CHECK_DILOG_RETURN(condition, message, ...)`. -/
def CHECK_DILOG_RETURN {σ ρ ε : Type} (env : Env) (file : String) (line : Int)
    (condition : Condition σ) (message : Arg σ) (v : Option ρ) : Stmt σ ρ ε :=
  PRIVATE_CHECK condition (DEBUG_LOG_INFO env file line) message (Flow.ret v)

/-- Source: `CHECK_FLOG_CONTINUE(condition, message)`. -/
def CHECK_FLOG_CONTINUE {σ ρ ε : Type} (env : Env) (file : String) (line : Int)
    (condition : Condition σ) (message : Arg σ) : Stmt σ ρ ε :=
  PRIVATE_CHECK condition (LOG_FATAL_ERROR env file line) message Flow.cont

/-- Source: `CHECK_ELOG_CONTINUE(condition, message)`. -/
def CHECK_ELOG_CONTINUE {σ ρ ε : Type} (env : Env) (file : String) (line : Int)
    (condition : Condition σ) (message : Arg σ) : Stmt σ ρ ε :=
  PRIVATE_CHECK condition (LOG_ERROR env file line) message Flow.cont

/-- Source: `CHECK_WLOG_CONTINUE(condition, message)`. -/
def CHECK_WLOG_CONTINUE {σ ρ ε : Type} (env : Env) (file : String) (line : Int)
    (condition : Condition σ) (message : Arg σ) : Stmt σ ρ ε :=
  PRIVATE_CHECK condition (LOG_WARNING env file line) message Flow.cont

/-- Source: `CHECK_ILOG_CONTINUE(condition, message)`. -/
def CHECK_ILOG_CONTINUE {σ ρ ε : Type} (env : Env) (file : String) (line : Int)
    (condition : Condition σ) (message : Arg σ) : Stmt σ ρ ε :=
  PRIVATE_CHECK condition (LOG_INFO env file line) message Flow.cont

/-- Source: `CHECK_DELOG_CONTINUE(condition, message)`. -/
def CHECK_DELOG_CONTINUE {σ ρ ε : Type} (env : Env) (file : String) (line : Int)
    (condition : Condition σ) (message : Arg σ) : Stmt σ ρ ε :=
  PRIVATE_CHECK condition (DEBUG_LOG_ERROR env file line) message Flow.cont

/-- Source: `CHECK_DWLOG_CONTINUE(condition, message)`. -/
def CHECK_DWLOG_CONTINUE {σ ρ ε : Type} (env : Env) (file : String) (line : Int)
    (condition : Condition σ) (message : Arg σ) : Stmt σ ρ ε :=
  PRIVATE_CHECK condition (DEBUG_LOG_WARNING env file line) message Flow.cont

/-- Source: `CHECK_DILOG_CONTINUE(condition, message)`. -/
def CHECK_DILOG_CONTINUE {σ ρ ε : Type} (env : Env) (file : String) (line : Int)
    (condition : Condition σ) (message : Arg σ) : Stmt σ ρ ε :=
  PRIVATE_CHECK condition (DEBUG_LOG_INFO env file line) message Flow.cont

/-- Source: `CHECK_FLOG_AUTO_RETURN(condition, ...)`. -/
def CHECK_FLOG_AUTO_RETURN {σ ρ ε : Type} (env : Env) (file : String) (line : Int)
    (condition : Condition σ) (v : Option ρ) : Stmt σ ρ ε :=
  PRIVATE_CHECK condition (LOG_FATAL_ERROR env file line) (Arg.pure (Value.str (PRIVATE_ADD_EQUAL_FALSE condition.text))) (Flow.ret v)

/-- Source: `CHECK_ELOG_AUTO_RETURN(condition, ...)`. -/
def CHECK_ELOG_AUTO_RETURN {σ ρ ε : Type} (env : Env) (file : String) (line : Int)
    (condition : Condition σ) (v : Option ρ) : Stmt σ ρ ε :=
  PRIVATE_CHECK condition (LOG_ERROR env file line) (Arg.pure (Value.str (PRIVATE_ADD_EQUAL_FALSE condition.text))) (Flow.ret v)

/-- Source: `CHECK_WLOG_AUTO_RETURN(condition, ...)`. -/
def CHECK_WLOG_AUTO_RETURN {σ ρ ε : Type} (env : Env) (file : String) (line : Int)
    (condition : Condition σ) (v : Option ρ) : Stmt σ ρ ε :=
  PRIVATE_CHECK condition (LOG_WARNING env file line) (Arg.pure (Value.str (PRIVATE_ADD_EQUAL_FALSE condition.text))) (Flow.ret v)

/-- Source: `CHECK_ILOG_AUTO_RETURN(condition, ...)`. -/
def CHECK_ILOG_AUTO_RETURN {σ ρ ε : Type} (env : Env) (file : String) (line : Int)
    (condition : Condition σ) (v : Option ρ) : Stmt σ ρ ε :=
  PRIVATE_CHECK condition (LOG_INFO env file line) (Arg.pure (Value.str (PRIVATE_ADD_EQUAL_FALSE condition.text))) (Flow.ret v)

/-- Source: `CHECK_DELOG_AUTO_RETURN(condition, ...)`. -/
def CHECK_DELOG_AUTO_RETURN {σ ρ ε : Type} (env : Env) (file : String) (line : Int)
    (condition : Condition σ) (v : Option ρ) : Stmt σ ρ ε :=
  PRIVATE_CHECK condition (DEBUG_LOG_ERROR env file line) (Arg.pure (Value.str (PRIVATE_ADD_EQUAL_FALSE condition.text))) (Flow.ret v)

/-- Source: `CHECK_DWLOG_AUTO_RETURN(condition, ...)`. -/
def CHECK_DWLOG_AUTO_RETURN {σ ρ ε : Type} (env : Env) (file : String) (line : Int)
    (condition : Condition σ) (v : Option ρ) : Stmt σ ρ ε :=
  PRIVATE_CHECK condition (DEBUG_LOG_WARNING env file line) (Arg.pure (Value.str (PRIVATE_ADD_EQUAL_FALSE condition.text))) (Flow.ret v)

/-- Source: `CHECK_DILOG_AUTO_RETURN(condition, ...)`. -/
def CHECK_DILOG_AUTO_RETURN {σ ρ ε : Type} (env : Env) (file : String) (line : Int)
    (condition : Condition σ) (v : Option ρ) : Stmt σ ρ ε :=
  PRIVATE_CHECK condition (DEBUG_LOG_INFO env file line) (Arg.pure (Value.str (PRIVATE_ADD_EQUAL_FALSE condition.text))) (Flow.ret v)

/-- Source: `CHECK_FLOG_AUTO_CONTINUE(condition)`. -/
def CHECK_FLOG_AUTO_CONTINUE {σ ρ ε : Type} (env : Env) (file : String) (line : Int)
    (condition : Condition σ) : Stmt σ ρ ε :=
  PRIVATE_CHECK condition (LOG_FATAL_ERROR env file line) (Arg.pure (Value.str (PRIVATE_ADD_EQUAL_FALSE condition.text))) Flow.cont

/-- Source: `CHECK_ELOG_AUTO_CONTINUE(condition)`. -/
def CHECK_ELOG_AUTO_CONTINUE {σ ρ ε : Type} (env : Env) (file : String) (line : Int)
    (condition : Condition σ) : Stmt σ ρ ε :=
  PRIVATE_CHECK condition (LOG_ERROR env file line) (Arg.pure (Value.str (PRIVATE_ADD_EQUAL_FALSE condition.text))) Flow.cont

/-- Source: `CHECK_WLOG_AUTO_CONTINUE(condition)`. -/
def CHECK_WLOG_AUTO_CONTINUE {σ ρ ε : Type} (env : Env) (file : String) (line : Int)
    (condition : Condition σ) : Stmt σ ρ ε :=
  PRIVATE_CHECK condition (LOG_WARNING env file line) (Arg.pure (Value.str (PRIVATE_ADD_EQUAL_FALSE condition.text))) Flow.cont

/-- Source: `CHECK_ILOG_AUTO_CONTINUE(condition)`. -/
def CHECK_ILOG_AUTO_CONTINUE {σ ρ ε : Type} (env : Env) (file : String) (line : Int)
    (condition : Condition σ) : Stmt σ ρ ε :=
  PRIVATE_CHECK condition (LOG_INFO env file line) (Arg.pure (Value.str (PRIVATE_ADD_EQUAL_FALSE condition.text))) Flow.cont

/-- Source: `CHECK_DELOG_AUTO_CONTINUE(condition)`. -/
def CHECK_DELOG_AUTO_CONTINUE {σ ρ ε : Type} (env : Env) (file : String) (line : Int)
    (condition : Condition σ) : Stmt σ ρ ε :=
  PRIVATE_CHECK condition (DEBUG_LOG_ERROR env file line) (Arg.pure (Value.str (PRIVATE_ADD_EQUAL_FALSE condition.text))) Flow.cont

/-- Source: `CHECK_DWLOG_AUTO_CONTINUE(condition)`. -/
def CHECK_DWLOG_AUTO_CONTINUE {σ ρ ε : Type} (env : Env) (file : String) (line : Int)
    (condition : Condition σ) : Stmt σ ρ ε :=
  PRIVATE_CHECK condition (DEBUG_LOG_WARNING env file line) (Arg.pure (Value.str (PRIVATE_ADD_EQUAL_FALSE condition.text))) Flow.cont

/-- Source: `CHECK_DILOG_AUTO_CONTINUE(condition)`. -/
def CHECK_DILOG_AUTO_CONTINUE {σ ρ ε : Type} (env : Env) (file : String) (line : Int)
    (condition : Condition σ) : Stmt σ ρ ε :=
  PRIVATE_CHECK condition (DEBUG_LOG_INFO env file line) (Arg.pure (Value.str (PRIVATE_ADD_EQUAL_FALSE condition.text))) Flow.cont

/-- The guard `CHECK_*LOG_RETURN` built on each log statement. -/
def CHECK_LOG_RETURN {σ ρ ε : Type} : LogStatement →
    Env → String → Int → Condition σ → Arg σ → Option ρ → Stmt σ ρ ε
  | LogStatement.fatal_error => CHECK_FLOG_RETURN
  | LogStatement.error => CHECK_ELOG_RETURN
  | LogStatement.warning => CHECK_WLOG_RETURN
  | LogStatement.info => CHECK_ILOG_RETURN
  | LogStatement.debug_error => CHECK_DELOG_RETURN
  | LogStatement.debug_warning => CHECK_DWLOG_RETURN
  | LogStatement.debug_info => CHECK_DILOG_RETURN

/-- The guard `CHECK_*LOG_CONTINUE` built on each log statement. -/
def CHECK_LOG_CONTINUE {σ ρ ε : Type} : LogStatement →
    Env → String → Int → Condition σ → Arg σ → Stmt σ ρ ε
  | LogStatement.fatal_error => CHECK_FLOG_CONTINUE
  | LogStatement.error => CHECK_ELOG_CONTINUE
  | LogStatement.warning => CHECK_WLOG_CONTINUE
  | LogStatement.info => CHECK_ILOG_CONTINUE
  | LogStatement.debug_error => CHECK_DELOG_CONTINUE
  | LogStatement.debug_warning => CHECK_DWLOG_CONTINUE
  | LogStatement.debug_info => CHECK_DILOG_CONTINUE

/-- The guard `CHECK_*LOG_AUTO_RETURN` built on each log statement. -/
def CHECK_LOG_AUTO_RETURN {σ ρ ε : Type} : LogStatement →
    Env → String → Int → Condition σ → Option ρ → Stmt σ ρ ε
  | LogStatement.fatal_error => CHECK_FLOG_AUTO_RETURN
  | LogStatement.error => CHECK_ELOG_AUTO_RETURN
  | LogStatement.warning => CHECK_WLOG_AUTO_RETURN
  | LogStatement.info => CHECK_ILOG_AUTO_RETURN
  | LogStatement.debug_error => CHECK_DELOG_AUTO_RETURN
  | LogStatement.debug_warning => CHECK_DWLOG_AUTO_RETURN
  | LogStatement.debug_info => CHECK_DILOG_AUTO_RETURN

/-- The guard `CHECK_*LOG_AUTO_CONTINUE` built on each log statement. -/
def CHECK_LOG_AUTO_CONTINUE {σ ρ ε : Type} : LogStatement →
    Env → String → Int → Condition σ → Stmt σ ρ ε
  | LogStatement.fatal_error => CHECK_FLOG_AUTO_CONTINUE
  | LogStatement.error => CHECK_ELOG_AUTO_CONTINUE
  | LogStatement.warning => CHECK_WLOG_AUTO_CONTINUE
  | LogStatement.info => CHECK_ILOG_AUTO_CONTINUE
  | LogStatement.debug_error => CHECK_DELOG_AUTO_CONTINUE
  | LogStatement.debug_warning => CHECK_DWLOG_AUTO_CONTINUE
  | LogStatement.debug_info => CHECK_DILOG_AUTO_CONTINUE

/-- The state at program start: initial configuration, nothing written to any
stream yet, no call made. -/
def World.initial {σ : Type} (ndebug : Bool) (u : σ) : World σ :=
  { cfg := Config.initial ndebug, sinks := fun _ => [], user := u, calls := [] }

/-! ## Preprocessing of a guard's condition

The `AUTO` guards hand their `condition` argument to
`PRIVATE_ADD_EQUAL_FALSE(arg1)`, whose replacement list is `#arg1 " = false"`.
In the replacement lists of `CHECK_*LOG_AUTO_*` the parameter `condition` is
not an operand of `#`, so the argument is macro-replaced before it is
substituted, and `#arg1` stringifies the replaced tokens. The definitions
below give the two steps for conditions made of ordinary tokens and
object-like macros: macro replacement, then the `#` operator, which keeps the
spelling of every token and turns each run of white space between two tokens
into one space. -/

/-- A preprocessing token of a condition as written in the source: the white
space (blanks, tabs, new-lines, comments) written before it, and its spelling. -/
structure SourceToken where
  blank : String
  spelling : String
  deriving DecidableEq, Repr

/-- An object-like macro definition in force at the call site:
`#define name body`. -/
structure MacroDef where
  name : String
  body : List SourceToken
  deriving DecidableEq, Repr

/-- The first token of a replacement list takes the place of the macro name,
white space before it included. -/
def inheritBlank (blank : String) : List SourceToken → List SourceToken
  | [] => []
  | t :: rest => { t with blank := blank } :: rest

/-- Macro replacement of one token. A token that names a macro not being
replaced already (`hidden`) is replaced by the macro's replacement list, which
is rescanned with that name hidden. The first argument bounds the nesting
depth; a depth of `defs.length` is never exceeded, since every level hides
one more of the defined names. -/
def expandToken (defs : List MacroDef) : Nat → List String → SourceToken → List SourceToken
  | 0 => fun _ t => [t]
  | fuel + 1 => fun hidden t =>
    if t.spelling ∈ hidden then [t]
    else
      match defs.find? (fun d => d.name == t.spelling) with
      | none => [t]
      | some d =>
        (inheritBlank t.blank d.body).flatMap (expandToken defs fuel (d.name :: hidden))

/-- Macro replacement of a token sequence. -/
def macroReplace (defs : List MacroDef) (tokens : List SourceToken) : List SourceToken :=
  tokens.flatMap (expandToken defs defs.length [])

/-- Tag letter of the specification: I for Info, W for Warning, E for Error,
F for FatalError, and I for any other value. -/
def specTag (severity : Nat) : String :=
  if severity = LogMessageType.Info then "I"
  else if severity = LogMessageType.Warning then "W"
  else if severity = LogMessageType.Error then "E"
  else if severity = LogMessageType.FatalError then "F"
  else "I"

/-- Prefix of a line in the specification: the tag, then the time stamp, the
thread id and the file location, in this order, each present iff its bit is
set in the info mask. -/
def specHeader (env : Env) (tag : String) (info_mask : Nat) (file : String) (line : Int) :
    String :=
  "[" ++ tag ++ "]"
    ++ (if info_mask &&& LogInfos.TimeStamp ≠ 0 then "[(GMT)" ++ env.time_stamp ++ "]" else "")
    ++ (if info_mask &&& LogInfos.ThreadId ≠ 0 then "[" ++ env.thread_id ++ "]" else "")
    ++ (if info_mask &&& LogInfos.FileNameWithLine ≠ 0
          then "[" ++ file ++ ":" ++ toString line ++ "]" else "")

/-- Line template of the specification: the prefix, the separator, the
message and the line terminator. -/
def specLine (env : Env) (tag : String) (info_mask : Nat) (file : String) (line : Int)
    (message : String) : String :=
  specHeader env tag info_mask file line ++ "$ " ++ message ++ "\n"

/-- Values of a chain of appended expressions, evaluated left to right, and
the caller's state afterwards. -/
def evalArgs {σ : Type} : List (Arg σ) → σ → List Value × σ
  | [], u => ([], u)
  | a :: rest, u => ((a u).1 :: (evalArgs rest (a u).2).1, (evalArgs rest (a u).2).2)

/-- The texts of a list of values, concatenated without separators. -/
def concatText : List Value → String
  | [] => ""
  | v :: vs => stringify v ++ concatText vs

/-- Severity at which each log statement logs. -/
def LogStatement.severity : LogStatement → Nat
  | LogStatement.fatal_error => LogMessageType.FatalError
  | LogStatement.error => LogMessageType.Error
  | LogStatement.warning => LogMessageType.Warning
  | LogStatement.info => LogMessageType.Info
  | LogStatement.debug_error => LogMessageType.Error
  | LogStatement.debug_warning => LogMessageType.Warning
  | LogStatement.debug_info => LogMessageType.Info

/-- Whether the statement is one of the debug-only variants. -/
def LogStatement.debugOnly : LogStatement → Bool
  | LogStatement.debug_error => true
  | LogStatement.debug_warning => true
  | LogStatement.debug_info => true
  | _ => false

/-- Whether the statement is routed to the error channel (Error and
FatalError) rather than to the primary channel (Info and Warning). -/
def LogStatement.onErrorChannel (st : LogStatement) : Bool :=
  decide (st.severity = LogMessageType.Error ∨ st.severity = LogMessageType.FatalError)

/-- The sink currently set for the channel of a statement. -/
def LogStatement.sink (st : LogStatement) (cfg : Config) : Stream :=
  if st.onErrorChannel then cfg.elog_stream_ else cfg.log_stream_

/-- The sink currently set for the other channel. -/
def LogStatement.otherSink (st : LogStatement) (cfg : Config) : Stream :=
  if st.onErrorChannel then cfg.log_stream_ else cfg.elog_stream_

/-- Severity gate of the specification: `(severity & enabled) != 0`. -/
def IsSeverityEnabled (severity : Nat) (cfg : Config) : Prop :=
  severity &&& cfg.log_message_types_ ≠ 0

instance (severity : Nat) (cfg : Config) : Decidable (IsSeverityEnabled severity cfg) := by
  unfold IsSeverityEnabled; infer_instance

/-- Both gates of a statement: the severity gate and, for the debug-only
variants, build mode = Debug. -/
def LogStatement.gateOpen (st : LogStatement) (cfg : Config) : Prop :=
  (st.debugOnly = true → cfg.log_type_ = LogType.Debug) ∧ IsSeverityEnabled st.severity cfg

instance (st : LogStatement) (cfg : Config) : Decidable (st.gateOpen cfg) := by
  unfold LogStatement.gateOpen; infer_instance

/-- The calls a log statement makes into `Logger.cpp` once its gates are open. -/
def LogStatement.openCalls (st : LogStatement) : List Call :=
  (if st.debugOnly then [Call.GetLogType] else [])
    ++ [Call.GetLogMessageTypes,
        if st.onErrorChannel then Call.GetELogStream else Call.GetLogStream,
        Call.LoggerCtor, Call.GetLogInfos, Call.LoggerDtor]

/-- The calls a log statement makes into `Logger.cpp` when one of its gates
is closed: the debug-only variants read the build mode first and read the
severity mask only in Debug mode. -/
def LogStatement.closedCalls (st : LogStatement) (cfg : Config) : List Call :=
  if st.debugOnly then
    (if cfg.log_type_ = LogType.Debug then [Call.GetLogType, Call.GetLogMessageTypes]
     else [Call.GetLogType])
  else [Call.GetLogMessageTypes]

/-- The line a statement writes according to the specification. -/
def LogStatement.line {σ : Type} (st : LogStatement) (env : Env) (file : String) (line : Int)
    (args : List (Arg σ)) (w : World σ) : String :=
  specLine env (specTag st.severity) w.cfg.log_infos_ file line
    (concatText (evalArgs args w.user).1)

/-- The state after a statement whose gates are open, according to the
specification: one line is added to the sink of the statement's channel, the
appended expressions have been evaluated, the configuration is untouched. -/
def LogStatement.written {σ : Type} (st : LogStatement) (env : Env) (file : String)
    (line : Int) (args : List (Arg σ)) (w : World σ) : World σ :=
  { cfg := w.cfg
    sinks := fun s =>
      if s = st.sink w.cfg then w.sinks s ++ [st.line env file line args w] else w.sinks s
    user := (evalArgs args w.user).2
    calls := w.calls ++ st.openCalls }

/-- The state after a statement one of whose gates is closed, according to
the specification: only the gate checks have run. -/
def LogStatement.skipped {σ : Type} (st : LogStatement) (w : World σ) : World σ :=
  { w with calls := w.calls ++ st.closedCalls w.cfg }

/-- The state a log statement leaves according to the specification: its
line is written when both gates are open, nothing is written otherwise. -/
def LogStatement.outcome {σ : Type} (st : LogStatement) (env : Env) (file : String)
    (line : Int) (args : List (Arg σ)) (w : World σ) : World σ :=
  if st.gateOpen w.cfg then st.written env file line args w else st.skipped w

/-- The state once the condition of a guard has been evaluated. -/
def Condition.after {σ : Type} (condition : Condition σ) (w : World σ) : World σ :=
  { w with user := (condition.eval w.user).2 }

/-- The message of the `AUTO` guards according to the specification: the
text of the condition followed by `" = false"`, as a literal. -/
def Condition.autoMessage {σ : Type} (condition : Condition σ) : Arg σ :=
  Arg.pure (Value.str (condition.text ++ " = false"))

/-- The plain (not debug-only) log statement of the same severity. -/
def LogStatement.plain : LogStatement → LogStatement
  | LogStatement.debug_error => LogStatement.error
  | LogStatement.debug_warning => LogStatement.warning
  | LogStatement.debug_info => LogStatement.info
  | st => st

/-- One executed log statement: which statement, at what time and on which
thread, where in the source, and what is appended. -/
structure LogCall (σ : Type) where
  st : LogStatement
  env : Env
  file : String
  line : Int
  args : List (Arg σ)

/-- Run one executed log statement. -/
def LogCall.run {σ : Type} (c : LogCall σ) (w : World σ) : World σ :=
  c.st.run c.env c.file c.line c.args w

/-- Run a sequence of log statements, one after the other. -/
def runCalls {σ : Type} : List (LogCall σ) → World σ → World σ
  | [], w => w
  | c :: rest, w => runCalls rest (c.run w)

/-- The text written to a stream between two states: the chunks the later
state holds beyond those of the earlier one. -/
def newChunks {σ : Type} (before after : World σ) (s : Stream) : List String :=
  (after.sinks s).drop (before.sinks s).length

/-- Two states that a program cannot tell apart: the same configuration
cells, the same content of every stream and the same caller state (the ghost
trace is not compared). -/
def World.sameAs {σ : Type} (w1 w2 : World σ) : Prop :=
  w1.cfg = w2.cfg ∧ w1.sinks = w2.sinks ∧ w1.user = w2.user

/-- A call of one of the five configuration setters, with its argument. -/
inductive Setter
  | logType (log_type : Nat)
  | logMessageTypes (log_message_types : Nat)
  | logInfos (log_infos : Nat)
  | logStream (stream : Stream)
  | elogStream (stream : Stream)
  deriving DecidableEq, Repr

/-- Perform a setter call. -/
def Setter.call {σ : Type} : Setter → World σ → World σ
  | Setter.logType v => SetLogType v
  | Setter.logMessageTypes v => SetLogMessageTypes v
  | Setter.logInfos v => SetLogInfos v
  | Setter.logStream s => SetLogStream s
  | Setter.elogStream s => SetELogStream s

/-- Perform a sequence of setter calls, one after the other. -/
def callSetters {σ : Type} : List Setter → World σ → World σ
  | [], w => w
  | f :: rest, w => callSetters rest (f.call w)

/-- What can happen to a record between its creation and its destruction:
a value is appended, or some code calls a configuration setter. -/
inductive RecordStep
  | shl (value : Value)
  | set (f : Setter)
  deriving DecidableEq, Repr

/-- Perform such steps in order on a live record. -/
def runRecordSteps {σ : Type} : List RecordStep → Logger × World σ → Logger × World σ
  | [], lw => lw
  | RecordStep.shl value :: rest, lw => runRecordSteps rest (lw.1.shl value, lw.2)
  | RecordStep.set f :: rest, lw => runRecordSteps rest (lw.1, f.call lw.2)

/-- The values appended by a list of steps, in order. -/
def appendedValues : List RecordStep → List Value
  | [] => []
  | RecordStep.shl value :: rest => value :: appendedValues rest
  | RecordStep.set _ :: rest => appendedValues rest

/-- Number of line terminators (`"\n"` characters) in a text. -/
def countNewlines (text : String) : Nat :=
  text.data.count '\n'

/-! ## Lemmas about the formatter and the record -/

theorem MessageTypeToString_eq_specTag (m : Nat) : MessageTypeToString m = specTag m := by
  unfold MessageTypeToString specTag type_to_string
  by_cases h4 : m = LogMessageType.Info
  · subst h4; rfl
  by_cases h2 : m = LogMessageType.Warning
  · subst h2; rfl
  by_cases h1 : m = LogMessageType.Error
  · subst h1; rfl
  by_cases h8 : m = LogMessageType.FatalError
  · subst h8; rfl
  have e4 : (m == LogMessageType.Info) = false := beq_eq_false_iff_ne.mpr h4
  have e2 : (m == LogMessageType.Warning) = false := beq_eq_false_iff_ne.mpr h2
  have e1 : (m == LogMessageType.Error) = false := beq_eq_false_iff_ne.mpr h1
  have e8 : (m == LogMessageType.FatalError) = false := beq_eq_false_iff_ne.mpr h8
  simp only [List.lookup, e4, e2, e1, e8, if_neg h4, if_neg h2, if_neg h1, if_neg h8]

theorem PrintInfos_fst {σ : Type} (env : Env) (ss : String) (m : Nat) (file : String)
    (line : Int) (w : World σ) :
    (PrintInfos env ss m file line w).1 =
      ss ++ specHeader env (specTag m) w.cfg.log_infos_ file line := by
  unfold PrintInfos GetLogInfos specHeader
  simp only [MessageTypeToString_eq_specTag]
  by_cases h0 : w.cfg.log_infos_ = 0
  · simp only [h0, Nat.zero_and, ne_eq, not_true_eq_false, if_true, if_false,
      String.append_assoc, String.append_empty]
  · simp only [h0, if_false]
    split_ifs <;> simp only [String.append_assoc, String.append_empty]

theorem PrintInfos_snd {σ : Type} (env : Env) (ss : String) (m : Nat) (file : String)
    (line : Int) (w : World σ) :
    (PrintInfos env ss m file line w).2 = w.record Call.GetLogInfos := by
  unfold PrintInfos GetLogInfos
  by_cases h0 : w.cfg.log_infos_ = 0 <;> simp [h0]

theorem Logger_ctor_fst {σ : Type} (env : Env) (out : Stream) (m : Nat) (file : String)
    (line : Int) (w : World σ) :
    (Logger.ctor env out m file line w).1 =
      { ss_ := specHeader env (specTag m) w.cfg.log_infos_ file line ++ "$ ", out_str_ := out } := by
  unfold Logger.ctor
  simp only [PrintInfos_fst, World.record, String.empty_append]

theorem Logger_ctor_snd {σ : Type} (env : Env) (out : Stream) (m : Nat) (file : String)
    (line : Int) (w : World σ) :
    (Logger.ctor env out m file line w).2 =
      { w with calls := w.calls ++ [Call.LoggerCtor, Call.GetLogInfos] } := by
  unfold Logger.ctor
  simp only [PrintInfos_snd, World.record, List.append_assoc, List.singleton_append]

theorem Logger_shlAll_eq {σ : Type} (args : List (Arg σ)) (l : Logger) (w : World σ) :
    l.shlAll args w =
      ({ ss_ := l.ss_ ++ concatText (evalArgs args w.user).1, out_str_ := l.out_str_ },
       { w with user := (evalArgs args w.user).2 }) := by
  induction args generalizing l w with
  | nil => simp only [Logger.shlAll, evalArgs, concatText, String.append_empty]
  | cons a rest ih =>
    simp only [Logger.shlAll, ih, evalArgs, concatText, Logger.shl, String.append_assoc]

theorem LOG_MESSAGE_PRIVATE_GetLogStream {σ : Type} (m : Nat) (env : Env) (file : String)
    (line : Int) (args : List (Arg σ)) (w : World σ) :
    LOG_MESSAGE_PRIVATE GetLogStream m env file line args w =
      if m &&& w.cfg.log_message_types_ ≠ 0 then
        { cfg := w.cfg
          sinks := fun s =>
            if s = w.cfg.log_stream_ then
              w.sinks s ++ [specLine env (specTag m) w.cfg.log_infos_ file line
                (concatText (evalArgs args w.user).1)]
            else w.sinks s
          user := (evalArgs args w.user).2
          calls := w.calls ++ [Call.GetLogMessageTypes, Call.GetLogStream, Call.LoggerCtor,
            Call.GetLogInfos, Call.LoggerDtor] }
      else { w with calls := w.calls ++ [Call.GetLogMessageTypes] } := by
  unfold LOG_MESSAGE_PRIVATE
  simp only [GetLogMessageTypes, GetLogStream, Logger_ctor_fst, Logger_ctor_snd,
    Logger_shlAll_eq, Logger.dtor, World.record, World.write, specLine,
    List.append_assoc, List.singleton_append, List.cons_append, List.nil_append,
    String.append_assoc]

theorem LOG_MESSAGE_PRIVATE_GetELogStream {σ : Type} (m : Nat) (env : Env) (file : String)
    (line : Int) (args : List (Arg σ)) (w : World σ) :
    LOG_MESSAGE_PRIVATE GetELogStream m env file line args w =
      if m &&& w.cfg.log_message_types_ ≠ 0 then
        { cfg := w.cfg
          sinks := fun s =>
            if s = w.cfg.elog_stream_ then
              w.sinks s ++ [specLine env (specTag m) w.cfg.log_infos_ file line
                (concatText (evalArgs args w.user).1)]
            else w.sinks s
          user := (evalArgs args w.user).2
          calls := w.calls ++ [Call.GetLogMessageTypes, Call.GetELogStream, Call.LoggerCtor,
            Call.GetLogInfos, Call.LoggerDtor] }
      else { w with calls := w.calls ++ [Call.GetLogMessageTypes] } := by
  unfold LOG_MESSAGE_PRIVATE
  simp only [GetLogMessageTypes, GetELogStream, Logger_ctor_fst, Logger_ctor_snd,
    Logger_shlAll_eq, Logger.dtor, World.record, World.write, specLine,
    List.append_assoc, List.singleton_append, List.cons_append, List.nil_append,
    String.append_assoc]

theorem LogStatement_onErrorChannel_eq (st : LogStatement) :
    st.onErrorChannel =
      (st = LogStatement.fatal_error ∨ st = LogStatement.error ∨ st = LogStatement.debug_error) := by
  cases st <;> simp [LogStatement.onErrorChannel, LogStatement.severity, LogMessageType.Error,
    LogMessageType.FatalError, LogMessageType.Warning, LogMessageType.Info]

/-- Every log statement either writes its line (both gates open) or only
performs its gate checks. -/
theorem LogStatement_run_eq {σ : Type} (st : LogStatement) (env : Env) (file : String)
    (line : Int) (args : List (Arg σ)) (w : World σ) :
    st.run env file line args w =
      if st.gateOpen w.cfg then st.written env file line args w else st.skipped w := by
  have hsym : (LogType.Debug = w.cfg.log_type_) = (w.cfg.log_type_ = LogType.Debug) :=
    propext eq_comm
  cases st <;>
    simp only [LogStatement.run, LOG_FATAL_ERROR, LOG_ERROR, LOG_WARNING, LOG_INFO,
      DEBUG_LOG_ERROR, DEBUG_LOG_WARNING, DEBUG_LOG_INFO, LOG_DEBUG_MESSAGE_PRIVATE,
      GetLogType, World.record, hsym,
      LOG_MESSAGE_PRIVATE_GetLogStream, LOG_MESSAGE_PRIVATE_GetELogStream,
      LogStatement.gateOpen, LogStatement.written, LogStatement.skipped,
      LogStatement.closedCalls, LogStatement.openCalls, LogStatement.line,
      LogStatement.sink, LogStatement_onErrorChannel_eq, LogStatement.severity,
      LogStatement.debugOnly, IsSeverityEnabled] <;>
    by_cases hD : w.cfg.log_type_ = LogType.Debug <;>
    by_cases hS : LogMessageType.FatalError &&& w.cfg.log_message_types_ = 0 <;>
    by_cases hE : LogMessageType.Error &&& w.cfg.log_message_types_ = 0 <;>
    by_cases hW : LogMessageType.Warning &&& w.cfg.log_message_types_ = 0 <;>
    by_cases hI : LogMessageType.Info &&& w.cfg.log_message_types_ = 0 <;>
    simp [hD, hS, hE, hW, hI]

theorem PRIVATE_CHECK_false {σ ρ ε : Type} (condition : Condition σ)
    (out_stream : List (Arg σ) → World σ → World σ) (message : Arg σ) (action : Flow ρ ε)
    (w : World σ) (hc : (condition.eval w.user).1 = false) :
    PRIVATE_CHECK condition out_stream message action w
      = (action, out_stream [message] (condition.after w)) := by
  simp [PRIVATE_CHECK, PRIVATE_IF_CONDITION, hc, Condition.after]

theorem PRIVATE_CHECK_true {σ ρ ε : Type} (condition : Condition σ)
    (out_stream : List (Arg σ) → World σ → World σ) (message : Arg σ) (action : Flow ρ ε)
    (w : World σ) (hc : (condition.eval w.user).1 = true) :
    PRIVATE_CHECK condition out_stream message action w = (Flow.next, condition.after w) := by
  simp [PRIVATE_CHECK, PRIVATE_IF_CONDITION, hc, Condition.after]

theorem CHECK_LOG_RETURN_eq {σ ρ ε : Type} (st : LogStatement) (env : Env) (file : String)
    (line : Int) (condition : Condition σ) (message : Arg σ) (v : Option ρ) :
    (CHECK_LOG_RETURN st env file line condition message v : Stmt σ ρ ε)
      = PRIVATE_CHECK condition (st.run env file line) message (Flow.ret v) := by
  cases st <;> rfl

theorem CHECK_LOG_CONTINUE_eq {σ ρ ε : Type} (st : LogStatement) (env : Env) (file : String)
    (line : Int) (condition : Condition σ) (message : Arg σ) :
    (CHECK_LOG_CONTINUE st env file line condition message : Stmt σ ρ ε)
      = PRIVATE_CHECK condition (st.run env file line) message Flow.cont := by
  cases st <;> rfl

theorem CHECK_LOG_AUTO_RETURN_eq {σ ρ ε : Type} (st : LogStatement) (env : Env) (file : String)
    (line : Int) (condition : Condition σ) (v : Option ρ) :
    (CHECK_LOG_AUTO_RETURN st env file line condition v : Stmt σ ρ ε)
      = PRIVATE_CHECK condition (st.run env file line) condition.autoMessage (Flow.ret v) := by
  cases st <;> rfl

theorem CHECK_LOG_AUTO_CONTINUE_eq {σ ρ ε : Type} (st : LogStatement) (env : Env)
    (file : String) (line : Int) (condition : Condition σ) :
    (CHECK_LOG_AUTO_CONTINUE st env file line condition : Stmt σ ρ ε)
      = PRIVATE_CHECK condition (st.run env file line) condition.autoMessage Flow.cont := by
  cases st <;> rfl

theorem LogStatement_run_eq_outcome {σ : Type} (st : LogStatement) (env : Env) (file : String)
    (line : Int) (args : List (Arg σ)) (w : World σ) :
    st.run env file line args w = st.outcome env file line args w :=
  LogStatement_run_eq st env file line args w

theorem Logger_foldl_shl (vs : List Value) (l : Logger) :
    vs.foldl Logger.shl l = { ss_ := l.ss_ ++ concatText vs, out_str_ := l.out_str_ } := by
  induction vs generalizing l with
  | nil => simp only [List.foldl, concatText, String.append_empty]
  | cons v rest ih => simp only [List.foldl, ih, concatText, Logger.shl, String.append_assoc]

theorem LogStatement_written_sinks {σ : Type} (st : LogStatement) (env : Env) (file : String)
    (line : Int) (args : List (Arg σ)) (w : World σ) (hg : st.gateOpen w.cfg) :
    (st.run env file line args w).sinks (st.sink w.cfg)
        = w.sinks (st.sink w.cfg) ++ [st.line env file line args w]
    ∧ ∀ s, s ≠ st.sink w.cfg → (st.run env file line args w).sinks s = w.sinks s := by
  rw [LogStatement_run_eq, if_pos hg]
  exact ⟨if_pos rfl, fun s hs => if_neg hs⟩

theorem specHeader_without_time_and_location (env1 env2 : Env) (tag : String) (info_mask : Nat)
    (file1 file2 : String) (line1 line2 : Int)
    (hts : info_mask &&& LogInfos.TimeStamp = 0)
    (hfl : info_mask &&& LogInfos.FileNameWithLine = 0)
    (htid : env1.thread_id = env2.thread_id) :
    specHeader env1 tag info_mask file1 line1 = specHeader env2 tag info_mask file2 line2 := by
  simp only [specHeader, hts, hfl, htid, ne_eq, not_true_eq_false, if_false]

theorem LogStatement_plain_facts (st : LogStatement) :
    st.plain.severity = st.severity ∧ st.plain.debugOnly = false
      ∧ ∀ cfg, st.plain.sink cfg = st.sink cfg := by
  cases st <;> exact ⟨rfl, rfl, fun _ => rfl⟩

/-- With the time stamp and file location fields disabled, the streams after
an enabled log statement do not depend on where and when it runs, nor on
whether the debug-only variant is used. -/
theorem LogStatement_sinks_literal {σ : Type} (st : LogStatement) (env1 env2 : Env)
    (file1 file2 : String) (line1 line2 : Int) (m : Value) (w : World σ) (u : σ)
    (hg : st.gateOpen w.cfg)
    (hts : w.cfg.log_infos_ &&& LogInfos.TimeStamp = 0)
    (hfl : w.cfg.log_infos_ &&& LogInfos.FileNameWithLine = 0)
    (htid : env1.thread_id = env2.thread_id) :
    (st.run env1 file1 line1 [Arg.pure m] { w with user := u }).sinks
        = (st.run env2 file2 line2 [Arg.pure m] w).sinks
    ∧ (st.run env1 file1 line1 [Arg.pure m] { w with user := u }).sinks
        = (st.plain.run env2 file2 line2 [Arg.pure m] w).sinks
    ∧ (st.run env1 file1 line1 [Arg.pure m] { w with user := u }).sinks (st.sink w.cfg)
        = w.sinks (st.sink w.cfg)
            ++ [specHeader env1 (MessageTypeToString st.severity) w.cfg.log_infos_ file1 line1
                  ++ "$ " ++ stringify m ++ "\n"] := by
  have hp := LogStatement_plain_facts st
  have hgp : st.plain.gateOpen w.cfg := by
    refine ⟨fun h => ?_, ?_⟩
    · rw [hp.2.1] at h; exact absurd h (by decide)
    · have := hg.2
      simpa only [IsSeverityEnabled, hp.1] using this
  have hg1 : st.gateOpen ({ w with user := u } : World σ).cfg := hg
  have hh := specHeader_without_time_and_location env1 env2 (specTag st.severity)
    w.cfg.log_infos_ file1 file2 line1 line2 hts hfl htid
  rw [LogStatement_run_eq, LogStatement_run_eq, LogStatement_run_eq, if_pos hg, if_pos hg1,
    if_pos hgp]
  simp only [LogStatement.written, LogStatement.line, specLine, evalArgs, Arg.pure, concatText,
    String.append_empty, hh, hp.1, hp.2.2, if_true, MessageTypeToString_eq_specTag,
    String.append_assoc, and_self]

/-! ## Claims -/

/-- C1: for each of the four severities (with its tag letter), every info
mask, file name, line number and appended message, creating a `Logger` on a
sink, appending the message and destroying it appends to that sink exactly
the template line: tag, then time stamp, thread id and file location (each
iff its bit is set, in this order), then the separator, the message and the
line terminator; no other sink changes. -/
theorem C1_logger_writes_template_line {σ : Type} (env : Env) (out : Stream)
    (message_type : Nat) (tag : String)
    (h : (message_type, tag) ∈ [(LogMessageType.Info, "I"), (LogMessageType.Warning, "W"),
      (LogMessageType.Error, "E"), (LogMessageType.FatalError, "F")])
    (file : String) (line : Int) (message : Value) (w : World σ) :
    (((Logger.ctor env out message_type file line w).1.shl message).dtor
        (Logger.ctor env out message_type file line w).2).sinks out
      = w.sinks out ++ [specLine env tag w.cfg.log_infos_ file line (stringify message)]
    ∧ ∀ s, s ≠ out →
      (((Logger.ctor env out message_type file line w).1.shl message).dtor
        (Logger.ctor env out message_type file line w).2).sinks s = w.sinks s := by
  have htag : specTag message_type = tag := by
    simp only [List.mem_cons, Prod.mk.injEq, List.mem_singleton, List.not_mem_nil,
      or_false] at h
    rcases h with ⟨rfl, rfl⟩ | ⟨rfl, rfl⟩ | ⟨rfl, rfl⟩ | ⟨rfl, rfl⟩ <;> rfl
  simp only [Logger_ctor_fst, Logger_ctor_snd, Logger.shl, Logger.dtor, World.record,
    World.write, specLine, htag, String.append_assoc, if_true]
  refine ⟨trivial, ?_⟩
  intro s hs
  simp only [if_neg hs]

/-- C1, witness of the specification: Error, info mask {FileNameWithLine},
file "FileName", line 32, message "Message Test". -/
theorem C1_logger_writes_template_line_witness :
    (LogMessageType.Error, "E") ∈ [(LogMessageType.Info, "I"), (LogMessageType.Warning, "W"),
      (LogMessageType.Error, "E"), (LogMessageType.FatalError, "F")]
    ∧ (((Logger.ctor ⟨"30-10-2026(12:00:00)", "7"⟩ 5 LogMessageType.Error "FileName" 32
          (SetLogInfos LogInfos.FileNameWithLine (World.initial false ()))).1.shl
            (Value.str "Message Test")).dtor
        (Logger.ctor ⟨"30-10-2026(12:00:00)", "7"⟩ 5 LogMessageType.Error "FileName" 32
          (SetLogInfos LogInfos.FileNameWithLine (World.initial false ()))).2).sinks 5
      = ["[E][FileName:32]$ Message Test\n"] :=
  ⟨by decide,
   (C1_logger_writes_template_line ⟨"30-10-2026(12:00:00)", "7"⟩ 5 LogMessageType.Error "E"
      (by decide) "FileName" 32 (Value.str "Message Test")
      (SetLogInfos LogInfos.FileNameWithLine (World.initial false ()))).1.trans (by decide)⟩

/-- C2: severity gate. For each of the four plain log statements, every
configuration and every chain of appended expressions, the statement writes
(the streams change) iff `(severity & enabled) != 0`; when the bit is set
exactly one line is added to the statement's sink; when it is clear the only
thing that happened is the read of the mask: no `Logger` was constructed, no
stream changed and no appended expression was evaluated. The same holds of
`LOG_MESSAGE_PRIVATE` at every severity value `s`, on either channel. -/
theorem C2_severity_gate {σ : Type} (st : LogStatement) (hplain : st.debugOnly = false)
    (s : Nat) (env : Env) (file : String) (line : Int) (args : List (Arg σ)) (w : World σ) :
    ((st.run env file line args w).sinks ≠ w.sinks
        ↔ st.severity &&& w.cfg.log_message_types_ ≠ 0)
    ∧ (st.severity &&& w.cfg.log_message_types_ ≠ 0 →
        (st.run env file line args w).sinks (st.sink w.cfg)
          = w.sinks (st.sink w.cfg) ++ [st.line env file line args w])
    ∧ (st.severity &&& w.cfg.log_message_types_ = 0 →
        st.run env file line args w
          = { w with calls := w.calls ++ [Call.GetLogMessageTypes] })
    ∧ (s &&& w.cfg.log_message_types_ = 0 →
        LOG_MESSAGE_PRIVATE GetLogStream s env file line args w
            = { w with calls := w.calls ++ [Call.GetLogMessageTypes] }
          ∧ LOG_MESSAGE_PRIVATE GetELogStream s env file line args w
            = { w with calls := w.calls ++ [Call.GetLogMessageTypes] })
    ∧ (s &&& w.cfg.log_message_types_ ≠ 0 →
        (LOG_MESSAGE_PRIVATE GetLogStream s env file line args w).sinks w.cfg.log_stream_
            = w.sinks w.cfg.log_stream_
                ++ [specLine env (MessageTypeToString s) w.cfg.log_infos_ file line
                      (concatText (evalArgs args w.user).1)]
          ∧ (LOG_MESSAGE_PRIVATE GetELogStream s env file line args w).sinks w.cfg.elog_stream_
            = w.sinks w.cfg.elog_stream_
                ++ [specLine env (MessageTypeToString s) w.cfg.log_infos_ file line
                      (concatText (evalArgs args w.user).1)]) := by
  have hgen0 : s &&& w.cfg.log_message_types_ = 0 →
      LOG_MESSAGE_PRIVATE GetLogStream s env file line args w
          = { w with calls := w.calls ++ [Call.GetLogMessageTypes] }
        ∧ LOG_MESSAGE_PRIVATE GetELogStream s env file line args w
          = { w with calls := w.calls ++ [Call.GetLogMessageTypes] } := by
    intro h0
    rw [LOG_MESSAGE_PRIVATE_GetLogStream, LOG_MESSAGE_PRIVATE_GetELogStream]
    simp only [h0, ne_eq, not_true_eq_false, if_false, and_self]
  have hgen1 : s &&& w.cfg.log_message_types_ ≠ 0 →
      (LOG_MESSAGE_PRIVATE GetLogStream s env file line args w).sinks w.cfg.log_stream_
          = w.sinks w.cfg.log_stream_
              ++ [specLine env (MessageTypeToString s) w.cfg.log_infos_ file line
                    (concatText (evalArgs args w.user).1)]
        ∧ (LOG_MESSAGE_PRIVATE GetELogStream s env file line args w).sinks w.cfg.elog_stream_
          = w.sinks w.cfg.elog_stream_
              ++ [specLine env (MessageTypeToString s) w.cfg.log_infos_ file line
                    (concatText (evalArgs args w.user).1)] := by
    intro h1
    rw [LOG_MESSAGE_PRIVATE_GetLogStream, LOG_MESSAGE_PRIVATE_GetELogStream]
    simp only [h1, ne_eq, not_false_eq_true, if_true, MessageTypeToString_eq_specTag, and_self]
  have hgate : st.gateOpen w.cfg ↔ st.severity &&& w.cfg.log_message_types_ ≠ 0 := by
    simp [LogStatement.gateOpen, IsSeverityEnabled, hplain]
  have hclosed : st.closedCalls w.cfg = [Call.GetLogMessageTypes] := by
    simp [LogStatement.closedCalls, hplain]
  refine ⟨?_, ?_, ?_, hgen0, hgen1⟩
  · rw [LogStatement_run_eq]
    by_cases hs : st.severity &&& w.cfg.log_message_types_ = 0
    · have hg : ¬ st.gateOpen w.cfg := fun h => (hgate.mp h) hs
      simp [hg, hs, LogStatement.skipped]
    · have hg : st.gateOpen w.cfg := hgate.mpr hs
      simp only [hg, if_true, hs, ne_eq, not_false_eq_true, iff_true, LogStatement.written]
      intro heq
      have h1 := congrFun heq (st.sink w.cfg)
      simp at h1
  · intro hs
    rw [LogStatement_run_eq, if_pos (hgate.mpr hs)]
    exact if_pos rfl
  · intro hs
    have hg : ¬ st.gateOpen w.cfg := fun h => (hgate.mp h) hs
    rw [LogStatement_run_eq, if_neg hg]
    simp only [LogStatement.skipped, hclosed]

/-- C2, witness: with only Error enabled, `LOG_INFO << e` (where evaluating
`e` would increment a counter) leaves the counter and the streams as they
were, while `LOG_ERROR << e` writes its line to the error stream. -/
theorem C2_severity_gate_witness :
    LogStatement.info.debugOnly = false
    ∧ (LogStatement.info.run ⟨"t", "7"⟩ "a.cpp" 310
          [fun n => (Value.str "Some message1", n + 1)]
          (SetLogMessageTypes LogMessageType.Error (World.initial false (0 : Nat)))).user = 0
    ∧ (LogStatement.info.run ⟨"t", "7"⟩ "a.cpp" 310
          [fun n => (Value.str "Some message1", n + 1)]
          (SetLogMessageTypes LogMessageType.Error (World.initial false (0 : Nat)))).sinks cout = []
    ∧ (LogStatement.error.run ⟨"t", "7"⟩ "a.cpp" 317
          [fun n => (Value.str "Some message", n + 1)]
          (SetLogMessageTypes LogMessageType.Error (World.initial false (0 : Nat)))).sinks cerr
        = ["[E][(GMT)t][7][a.cpp:317]$ Some message\n"] := by
  have h := C2_severity_gate LogStatement.info (by decide) 3 ⟨"t", "7"⟩ "a.cpp" 310
    [fun n => (Value.str "Some message1", n + 1)]
    (SetLogMessageTypes LogMessageType.Error (World.initial false (0 : Nat)))
  refine ⟨by decide, ?_, ?_, by decide⟩
  · rw [h.2.2.1 (by decide)]; rfl
  · rw [h.2.2.1 (by decide)]; rfl

/-- C3, as stated, fails: with Info disabled, `CHECK_ILOG_RETURN(false, "Some message1")`
writes no line at all (both streams stay empty) although it returns; in
Release mode `CHECK_DELOG_CONTINUE(false, "Message7")` writes no line either,
with every severity enabled. -/
theorem C3_counterexample :
    (CHECK_ILOG_RETURN ⟨"t", "7"⟩ "a.cpp" 344 ⟨"false", fun u => (false, u)⟩
        (Arg.pure (Value.str "Some message1")) none
        (SetLogMessageTypes LogMessageType.Error (World.initial false ()))
          : Flow Nat Unit × World Unit).2.sinks cout = []
    ∧ (CHECK_ILOG_RETURN ⟨"t", "7"⟩ "a.cpp" 344 ⟨"false", fun u => (false, u)⟩
        (Arg.pure (Value.str "Some message1")) none
        (SetLogMessageTypes LogMessageType.Error (World.initial false ()))
          : Flow Nat Unit × World Unit).2.sinks cerr = []
    ∧ (CHECK_ILOG_RETURN ⟨"t", "7"⟩ "a.cpp" 344 ⟨"false", fun u => (false, u)⟩
        (Arg.pure (Value.str "Some message1")) none
        (SetLogMessageTypes LogMessageType.Error (World.initial false ()))
          : Flow Nat Unit × World Unit).1 = Flow.ret none
    ∧ (CHECK_DELOG_CONTINUE ⟨"t", "7"⟩ "a.cpp" 870 ⟨"i == 7", fun u => (false, u)⟩
        (Arg.pure (Value.str "Message7"))
        (SetLogType LogType.Release (World.initial false ()))
          : Flow Nat Unit × World Unit).2.sinks cerr = []
    ∧ (CHECK_DELOG_CONTINUE ⟨"t", "7"⟩ "a.cpp" 870 ⟨"i == 7", fun u => (false, u)⟩
        (Arg.pure (Value.str "Message7"))
        (SetLogType LogType.Release (World.initial false ()))
          : Flow Nat Unit × World Unit).1 = Flow.cont := by
  decide

/-- C3, amended: when the condition is false, each logging guard (fixed or
auto-generated message, `return` or `continue`) built on any of the seven log
statements runs that log statement once on the message and then performs its
action: if the statement's gates are open (severity enabled and, for the
debug-only variants, build mode Debug) exactly one line is added to the sink
of the statement's channel and no other stream changes; otherwise no stream
changes; in both cases the guard ends with its action. -/
theorem C3_guard_failing_condition {σ ρ ε : Type} (st : LogStatement) (env : Env)
    (file : String) (line : Int) (condition : Condition σ) (message : Arg σ) (v : Option ρ)
    (w : World σ) (hc : (condition.eval w.user).1 = false) :
    (CHECK_LOG_RETURN st env file line condition message v w : Flow ρ ε × World σ)
        = (Flow.ret v, st.outcome env file line [message] (condition.after w))
    ∧ (CHECK_LOG_CONTINUE st env file line condition message w : Flow ρ ε × World σ)
        = (Flow.cont, st.outcome env file line [message] (condition.after w))
    ∧ (CHECK_LOG_AUTO_RETURN st env file line condition v w : Flow ρ ε × World σ)
        = (Flow.ret v, st.outcome env file line [condition.autoMessage] (condition.after w))
    ∧ (CHECK_LOG_AUTO_CONTINUE st env file line condition w : Flow ρ ε × World σ)
        = (Flow.cont, st.outcome env file line [condition.autoMessage] (condition.after w))
    ∧ (∀ args : List (Arg σ), st.gateOpen w.cfg →
        (st.outcome env file line args (condition.after w)).sinks (st.sink w.cfg)
            = w.sinks (st.sink w.cfg) ++ [st.line env file line args (condition.after w)]
          ∧ ∀ s, s ≠ st.sink w.cfg →
              (st.outcome env file line args (condition.after w)).sinks s = w.sinks s)
    ∧ (∀ args : List (Arg σ), ¬ st.gateOpen w.cfg →
        (st.outcome env file line args (condition.after w)).sinks = w.sinks) := by
  refine ⟨?_, ?_, ?_, ?_, ?_, ?_⟩
  · rw [CHECK_LOG_RETURN_eq, PRIVATE_CHECK_false _ _ _ _ _ hc, LogStatement_run_eq_outcome]
  · rw [CHECK_LOG_CONTINUE_eq, PRIVATE_CHECK_false _ _ _ _ _ hc, LogStatement_run_eq_outcome]
  · rw [CHECK_LOG_AUTO_RETURN_eq, PRIVATE_CHECK_false _ _ _ _ _ hc, LogStatement_run_eq_outcome]
  · rw [CHECK_LOG_AUTO_CONTINUE_eq, PRIVATE_CHECK_false _ _ _ _ _ hc,
      LogStatement_run_eq_outcome]
  · intro args hg
    have hw : st.outcome env file line args (condition.after w)
        = st.written env file line args (condition.after w) := if_pos hg
    rw [hw]
    refine ⟨if_pos rfl, ?_⟩
    intro s hs
    exact if_neg hs
  · intro args hg
    have hw : st.outcome env file line args (condition.after w)
        = st.skipped (condition.after w) := if_neg hg
    rw [hw]
    rfl

/-- C3, witness of the amended claim: with every severity enabled,
`CHECK_ILOG_RETURN(false, "Some message2", 12)` returns 12 after writing its
line to the primary stream. -/
theorem C3_guard_failing_condition_witness :
    ((⟨"false", fun u => (false, u)⟩ : Condition Unit).eval
        (SetLogInfos LogInfos.ThreadId (World.initial false ())).user).1 = false
    ∧ (CHECK_LOG_RETURN LogStatement.info ⟨"t", "7"⟩ "a.cpp" 366 ⟨"false", fun u => (false, u)⟩
        (Arg.pure (Value.str "Some message2")) (some 12)
        (SetLogInfos LogInfos.ThreadId (World.initial false ()))
          : Flow Nat Unit × World Unit).1 = Flow.ret (some 12)
    ∧ (CHECK_LOG_RETURN LogStatement.info ⟨"t", "7"⟩ "a.cpp" 366 ⟨"false", fun u => (false, u)⟩
        (Arg.pure (Value.str "Some message2")) (some 12)
        (SetLogInfos LogInfos.ThreadId (World.initial false ()))
          : Flow Nat Unit × World Unit).2.sinks cout = ["[I][7]$ Some message2\n"] := by
  have h := (C3_guard_failing_condition (ρ := Nat) (ε := Unit) LogStatement.info ⟨"t", "7"⟩
    "a.cpp" 366 ⟨"false", fun u => (false, u)⟩ (Arg.pure (Value.str "Some message2")) (some 12)
    (SetLogInfos LogInfos.ThreadId (World.initial false ())) rfl).1
  refine ⟨rfl, ?_, ?_⟩
  · rw [h]
  · rw [h]; decide

/-- C4: when the condition is true, each logging guard (fixed or
auto-generated message, `return` or `continue`) built on any of the seven log
statements, in every configuration, only evaluates its condition: no stream
changes, no call into the logger is made, the message is not evaluated, the
action is not performed, and the statements that follow the guard run next. -/
theorem C4_guard_passing_condition {σ ρ ε : Type} (st : LogStatement) (env : Env)
    (file : String) (line : Int) (condition : Condition σ) (message : Arg σ) (v : Option ρ)
    (w : World σ) (hc : (condition.eval w.user).1 = true) (rest : List (Stmt σ ρ ε)) :
    (CHECK_LOG_RETURN st env file line condition message v w : Flow ρ ε × World σ)
        = (Flow.next, { w with user := (condition.eval w.user).2 })
    ∧ (CHECK_LOG_CONTINUE st env file line condition message w : Flow ρ ε × World σ)
        = (Flow.next, { w with user := (condition.eval w.user).2 })
    ∧ (CHECK_LOG_AUTO_RETURN st env file line condition v w : Flow ρ ε × World σ)
        = (Flow.next, { w with user := (condition.eval w.user).2 })
    ∧ (CHECK_LOG_AUTO_CONTINUE st env file line condition w : Flow ρ ε × World σ)
        = (Flow.next, { w with user := (condition.eval w.user).2 })
    ∧ runBlock (CHECK_LOG_RETURN st env file line condition message v :: rest) w
        = runBlock rest { w with user := (condition.eval w.user).2 }
    ∧ runBlock (CHECK_LOG_CONTINUE st env file line condition message :: rest) w
        = runBlock rest { w with user := (condition.eval w.user).2 }
    ∧ runBlock (CHECK_LOG_AUTO_RETURN st env file line condition v :: rest) w
        = runBlock rest { w with user := (condition.eval w.user).2 }
    ∧ runBlock (CHECK_LOG_AUTO_CONTINUE st env file line condition :: rest) w
        = runBlock rest { w with user := (condition.eval w.user).2 } := by
  have h1 : (CHECK_LOG_RETURN st env file line condition message v w : Flow ρ ε × World σ)
      = (Flow.next, { w with user := (condition.eval w.user).2 }) := by
    rw [CHECK_LOG_RETURN_eq, PRIVATE_CHECK_true _ _ _ _ _ hc]; rfl
  have h2 : (CHECK_LOG_CONTINUE st env file line condition message w : Flow ρ ε × World σ)
      = (Flow.next, { w with user := (condition.eval w.user).2 }) := by
    rw [CHECK_LOG_CONTINUE_eq, PRIVATE_CHECK_true _ _ _ _ _ hc]; rfl
  have h3 : (CHECK_LOG_AUTO_RETURN st env file line condition v w : Flow ρ ε × World σ)
      = (Flow.next, { w with user := (condition.eval w.user).2 }) := by
    rw [CHECK_LOG_AUTO_RETURN_eq, PRIVATE_CHECK_true _ _ _ _ _ hc]; rfl
  have h4 : (CHECK_LOG_AUTO_CONTINUE st env file line condition w : Flow ρ ε × World σ)
      = (Flow.next, { w with user := (condition.eval w.user).2 }) := by
    rw [CHECK_LOG_AUTO_CONTINUE_eq, PRIVATE_CHECK_true _ _ _ _ _ hc]; rfl
  refine ⟨h1, h2, h3, h4, ?_, ?_, ?_, ?_⟩
  · simp only [runBlock, h1]
  · simp only [runBlock, h2]
  · simp only [runBlock, h3]
  · simp only [runBlock, h4]

/-- C4, witness: `CHECK_ILOG_RETURN(true, e, 2)`, where evaluating `e` would
increment a counter, followed by `CHECK_RETURN(false, 12)`: the first guard
writes nothing and leaves the counter at 0, the second one returns 12. -/
theorem C4_guard_passing_condition_witness :
    ((⟨"true", fun n => (true, n)⟩ : Condition Nat).eval (World.initial false 0).user).1 = true
    ∧ (runBlock
        [CHECK_LOG_RETURN LogStatement.info ⟨"t", "7"⟩ "a.cpp" 364 ⟨"true", fun n => (true, n)⟩
           (fun n => (Value.str "Skip message2", n + 1)) (some 2),
         CHECK_RETURN ⟨"false", fun n => (false, n)⟩ (some 12)]
        (World.initial false 0) : Flow Nat Unit × World Nat).1 = Flow.ret (some 12)
    ∧ (runBlock
        [CHECK_LOG_RETURN LogStatement.info ⟨"t", "7"⟩ "a.cpp" 364 ⟨"true", fun n => (true, n)⟩
           (fun n => (Value.str "Skip message2", n + 1)) (some 2),
         CHECK_RETURN ⟨"false", fun n => (false, n)⟩ (some 12)]
        (World.initial false 0) : Flow Nat Unit × World Nat).2.user = 0
    ∧ (runBlock
        [CHECK_LOG_RETURN LogStatement.info ⟨"t", "7"⟩ "a.cpp" 364 ⟨"true", fun n => (true, n)⟩
           (fun n => (Value.str "Skip message2", n + 1)) (some 2),
         CHECK_RETURN ⟨"false", fun n => (false, n)⟩ (some 12)]
        (World.initial false 0) : Flow Nat Unit × World Nat).2.sinks cout = [] := by
  have h := (C4_guard_passing_condition (ρ := Nat) (ε := Unit) LogStatement.info ⟨"t", "7"⟩
    "a.cpp" 364 ⟨"true", fun n => (true, n)⟩ (fun n => (Value.str "Skip message2", n + 1))
    (some 2) (World.initial false 0) rfl
    [CHECK_RETURN ⟨"false", fun n => (false, n)⟩ (some 12)]).2.2.2.2.1
  refine ⟨rfl, ?_, ?_, ?_⟩
  · rw [h]; rfl
  · rw [h]; rfl
  · rw [h]; rfl

/-- C5: debug-only gate under Release. For each debug-only log statement,
every severity mask, info mask and chain of appended expressions, when the
build mode is Release the statement only reads the build mode: the severity
mask is not read, no `Logger` is constructed, no stream changes and no
appended expression is evaluated. -/
theorem C5_debug_gate_release {σ : Type} (st : LogStatement) (hdebug : st.debugOnly = true)
    (env : Env) (file : String) (line : Int) (args : List (Arg σ)) (w : World σ)
    (hrelease : w.cfg.log_type_ = LogType.Release) :
    st.run env file line args w = { w with calls := w.calls ++ [Call.GetLogType] }
    ∧ (st.run env file line args w).sinks = w.sinks
    ∧ (st.run env file line args w).user = w.user
    ∧ Call.GetLogMessageTypes ∉ (st.run env file line args w).calls.drop w.calls.length := by
  have hne : ¬ w.cfg.log_type_ = LogType.Debug := by rw [hrelease]; decide
  have hg : ¬ st.gateOpen w.cfg := fun h => hne (h.1 hdebug)
  have hrun : st.run env file line args w = { w with calls := w.calls ++ [Call.GetLogType] } := by
    rw [LogStatement_run_eq, if_neg hg]
    simp only [LogStatement.skipped, LogStatement.closedCalls, hdebug, if_true, if_neg hne]
  refine ⟨hrun, ?_, ?_, ?_⟩
  · rw [hrun]
  · rw [hrun]
  · rw [hrun]
    simp

/-- C5, witness: in Release mode with every severity enabled,
`DEBUG_LOG_ERROR << e` (where evaluating `e` would increment a counter)
leaves both streams empty and the counter at 0. -/
theorem C5_debug_gate_release_witness :
    LogStatement.debug_error.debugOnly = true
    ∧ (SetLogType LogType.Release (World.initial false (0 : Nat))).cfg.log_type_
        = LogType.Release
    ∧ (LogStatement.debug_error.run ⟨"t", "7"⟩ "a.cpp" 295
        [fun n => (Value.str "Some message2", n + 1)]
        (SetLogType LogType.Release (World.initial false (0 : Nat)))).user = 0
    ∧ (LogStatement.debug_error.run ⟨"t", "7"⟩ "a.cpp" 295
        [fun n => (Value.str "Some message2", n + 1)]
        (SetLogType LogType.Release (World.initial false (0 : Nat)))).calls
        = [Call.SetLogType, Call.GetLogType] := by
  have h := C5_debug_gate_release LogStatement.debug_error rfl ⟨"t", "7"⟩ "a.cpp" 295
    [fun n => (Value.str "Some message2", n + 1)]
    (SetLogType LogType.Release (World.initial false (0 : Nat))) rfl
  refine ⟨rfl, rfl, ?_, ?_⟩
  · rw [h.1]; rfl
  · rw [h.1]; rfl

/-- C6: with info mask 0, for every severity value and every message, a
record created on a sink, appended to once and destroyed adds to that sink
exactly `"[" + tag + "]$ " + message + "\n"`, where the tag computed by
`MessageTypeToString` is I for Info, W for Warning, E for Error, F for
FatalError and I for every other value (such as 0, 3 and 16). -/
theorem C6_line_without_infos {σ : Type} (env : Env) (out : Stream) (message_type : Nat)
    (file : String) (line : Int) (message : Value) (w : World σ)
    (h0 : w.cfg.log_infos_ = 0) :
    (((Logger.ctor env out message_type file line w).1.shl message).dtor
        (Logger.ctor env out message_type file line w).2).sinks out
      = w.sinks out
          ++ ["[" ++ MessageTypeToString message_type ++ "]$ " ++ stringify message ++ "\n"]
    ∧ MessageTypeToString LogMessageType.Info = "I"
    ∧ MessageTypeToString LogMessageType.Warning = "W"
    ∧ MessageTypeToString LogMessageType.Error = "E"
    ∧ MessageTypeToString LogMessageType.FatalError = "F"
    ∧ (message_type ≠ LogMessageType.Info → message_type ≠ LogMessageType.Warning →
        message_type ≠ LogMessageType.Error → message_type ≠ LogMessageType.FatalError →
        MessageTypeToString message_type = "I")
    ∧ MessageTypeToString 0 = "I" ∧ MessageTypeToString 3 = "I"
    ∧ MessageTypeToString 16 = "I" := by
  refine ⟨?_, by decide, by decide, by decide, by decide, ?_, by decide, by decide, by decide⟩
  · have hsep : ∀ x : String, "]" ++ ("$ " ++ x) = "]$ " ++ x := fun x => by
      rw [← String.append_assoc]; rfl
    simp only [Logger_ctor_fst, Logger_ctor_snd, Logger.shl, Logger.dtor, World.record,
      World.write, specHeader, h0, Nat.zero_and, ne_eq, not_true_eq_false, if_false,
      String.append_assoc, String.append_empty, if_true, MessageTypeToString_eq_specTag,
      hsep]
  · intro h4 h2 h1 h8
    rw [MessageTypeToString_eq_specTag]
    simp only [specTag, if_neg h4, if_neg h2, if_neg h1, if_neg h8]

/-- C6, witness: the four tests `Test{E,W,I,F}LoggerWithoutAdditionalInfos`
and the unmapped value 16. -/
theorem C6_line_without_infos_witness :
    (SetLogInfos 0 (World.initial false ())).cfg.log_infos_ = 0
    ∧ (((Logger.ctor ⟨"t", "7"⟩ 5 LogMessageType.Error "FileName" 32
          (SetLogInfos 0 (World.initial false ()))).1.shl (Value.str "Message Test")).dtor
        (Logger.ctor ⟨"t", "7"⟩ 5 LogMessageType.Error "FileName" 32
          (SetLogInfos 0 (World.initial false ()))).2).sinks 5 = ["[E]$ Message Test\n"]
    ∧ (((Logger.ctor ⟨"t", "7"⟩ 5 LogMessageType.Warning "FileName" 32
          (SetLogInfos 0 (World.initial false ()))).1.shl (Value.str "Message Test1")).dtor
        (Logger.ctor ⟨"t", "7"⟩ 5 LogMessageType.Warning "FileName" 32
          (SetLogInfos 0 (World.initial false ()))).2).sinks 5 = ["[W]$ Message Test1\n"]
    ∧ (((Logger.ctor ⟨"t", "7"⟩ 5 LogMessageType.Info "FileName" 32
          (SetLogInfos 0 (World.initial false ()))).1.shl (Value.str "Message Test2")).dtor
        (Logger.ctor ⟨"t", "7"⟩ 5 LogMessageType.Info "FileName" 32
          (SetLogInfos 0 (World.initial false ()))).2).sinks 5 = ["[I]$ Message Test2\n"]
    ∧ (((Logger.ctor ⟨"t", "7"⟩ 5 LogMessageType.FatalError "FileName" 32
          (SetLogInfos 0 (World.initial false ()))).1.shl (Value.str "Message Test3")).dtor
        (Logger.ctor ⟨"t", "7"⟩ 5 LogMessageType.FatalError "FileName" 32
          (SetLogInfos 0 (World.initial false ()))).2).sinks 5 = ["[F]$ Message Test3\n"]
    ∧ (((Logger.ctor ⟨"t", "7"⟩ 5 16 "FileName" 32
          (SetLogInfos 0 (World.initial false ()))).1.shl (Value.int (-4))).dtor
        (Logger.ctor ⟨"t", "7"⟩ 5 16 "FileName" 32
          (SetLogInfos 0 (World.initial false ()))).2).sinks 5 = ["[I]$ -4\n"] :=
  ⟨rfl,
   (C6_line_without_infos ⟨"t", "7"⟩ 5 LogMessageType.Error "FileName" 32
      (Value.str "Message Test") (SetLogInfos 0 (World.initial false ())) rfl).1.trans
      (by decide),
   by decide, by decide, by decide, by decide⟩

/-- C7, as stated, fails: when both channels are bound to the same stream
(here stream 5, as after `SetLogStream(os); SetELogStream(os)`), `LOG_INFO`
changes the content of the error channel's sink and `LOG_ERROR` changes the
content of the primary channel's sink; and in Release mode `DEBUG_LOG_INFO`
writes nothing to the primary sink although Info is enabled. -/
theorem C7_counterexample :
    (SetELogStream 5 (SetLogStream 5 (World.initial false ()))).sinks
        (SetELogStream 5 (SetLogStream 5 (World.initial false ()))).cfg.elog_stream_ = []
    ∧ (LOG_INFO ⟨"t", "7"⟩ "a.cpp" 246 [Arg.pure (Value.str "Some message")]
        (SetELogStream 5 (SetLogStream 5 (World.initial false ())))).sinks
        (SetELogStream 5 (SetLogStream 5 (World.initial false ()))).cfg.elog_stream_
        = ["[I][(GMT)t][7][a.cpp:246]$ Some message\n"]
    ∧ (LOG_ERROR ⟨"t", "7"⟩ "a.cpp" 199 [Arg.pure (Value.str "Some message")]
        (SetELogStream 5 (SetLogStream 5 (World.initial false ())))).sinks
        (SetELogStream 5 (SetLogStream 5 (World.initial false ()))).cfg.log_stream_
        = ["[E][(GMT)t][7][a.cpp:199]$ Some message\n"]
    ∧ IsSeverityEnabled LogMessageType.Info
        (SetLogType LogType.Release (World.initial false ())).cfg
    ∧ (DEBUG_LOG_INFO ⟨"t", "7"⟩ "a.cpp" 249 [Arg.pure (Value.str "Some message debug")]
        (SetLogType LogType.Release (World.initial false ()))).sinks
        (SetLogType LogType.Release (World.initial false ())).cfg.log_stream_ = [] := by
  decide

/-- C7, amended: channel routing. In every configuration in which the gates
of the statement are open (severity enabled and, for the debug-only
variants, build mode Debug), `LOG_INFO` and `LOG_WARNING` and their
debug-only variants add their line to the stream currently set for the
primary channel, `LOG_ERROR`, `LOG_FATAL_ERROR` and `DEBUG_LOG_ERROR` add it
to the stream currently set for the error channel, and every other stream is
left unchanged: in particular the other channel's sink, whenever it is a
different stream. -/
theorem C7_channel_routing {σ : Type} (st : LogStatement) (env : Env) (file : String)
    (line : Int) (args : List (Arg σ)) (w : World σ) (hg : st.gateOpen w.cfg) :
    (st ∈ [LogStatement.info, LogStatement.warning, LogStatement.debug_info,
          LogStatement.debug_warning] →
        st.sink w.cfg = w.cfg.log_stream_ ∧ st.otherSink w.cfg = w.cfg.elog_stream_)
    ∧ (st ∈ [LogStatement.error, LogStatement.fatal_error, LogStatement.debug_error] →
        st.sink w.cfg = w.cfg.elog_stream_ ∧ st.otherSink w.cfg = w.cfg.log_stream_)
    ∧ (st.run env file line args w).sinks (st.sink w.cfg)
        = w.sinks (st.sink w.cfg) ++ [st.line env file line args w]
    ∧ (∀ s, s ≠ st.sink w.cfg → (st.run env file line args w).sinks s = w.sinks s)
    ∧ (st.otherSink w.cfg ≠ st.sink w.cfg →
        (st.run env file line args w).sinks (st.otherSink w.cfg)
          = w.sinks (st.otherSink w.cfg)) := by
  have hw := LogStatement_written_sinks st env file line args w hg
  refine ⟨?_, ?_, hw.1, hw.2, fun hne => hw.2 _ hne⟩
  · intro hst
    cases st <;> simp at hst <;> exact ⟨rfl, rfl⟩
  · intro hst
    cases st <;> simp at hst <;> exact ⟨rfl, rfl⟩

/-- C7, witness of the amended claim: with the primary channel on stream 5
and the error channel on stream 6, `LOG_WARNING` writes to stream 5 only. -/
theorem C7_channel_routing_witness :
    LogStatement.warning.gateOpen
        (SetELogStream 6 (SetLogStream 5 (World.initial false ()))).cfg
    ∧ (LogStatement.warning.run ⟨"t", "7"⟩ "a.cpp" 222 [Arg.pure (Value.str "Some message")]
        (SetELogStream 6 (SetLogStream 5 (World.initial false ())))).sinks 5
        = ["[W][(GMT)t][7][a.cpp:222]$ Some message\n"]
    ∧ (LogStatement.warning.run ⟨"t", "7"⟩ "a.cpp" 222 [Arg.pure (Value.str "Some message")]
        (SetELogStream 6 (SetLogStream 5 (World.initial false ())))).sinks 6 = [] := by
  have h := C7_channel_routing LogStatement.warning ⟨"t", "7"⟩ "a.cpp" 222
    [Arg.pure (Value.str "Some message")]
    (SetELogStream 6 (SetLogStream 5 (World.initial false ()))) (by decide)
  exact ⟨by decide, h.2.2.1.trans (by decide), (h.2.2.2.2 (by decide)).trans rfl⟩

/-- C8: append order is preserved verbatim. For every list of values chained
on one record (possibly empty), the line written when the record is
destroyed is the prefix, the separator `"$ "`, the texts of the values in
order with nothing between them, and `"\n"`; each append returns the record
itself, so appending two values equals appending the concatenation of their
texts. Witness of the specification: Warning, info mask {ThreadId}, values
"Message" and "Test1". -/
theorem C8_append_order_preserved {σ : Type} (env : Env) (out : Stream) (message_type : Nat)
    (file : String) (line : Int) (vs : List Value) (l : Logger) (v1 v2 : Value)
    (w : World σ) :
    ((vs.foldl Logger.shl (Logger.ctor env out message_type file line w).1).dtor
        (Logger.ctor env out message_type file line w).2).sinks out
      = w.sinks out
          ++ [specHeader env (MessageTypeToString message_type) w.cfg.log_infos_ file line
                ++ "$ " ++ concatText vs ++ "\n"]
    ∧ (l.shl v1).shl v2 = l.shl (Value.str (stringify v1 ++ stringify v2))
    ∧ (([Value.str "Message", Value.str "Test1"].foldl Logger.shl
          (Logger.ctor env out LogMessageType.Warning file line
            (SetLogInfos LogInfos.ThreadId w)).1).dtor
        (Logger.ctor env out LogMessageType.Warning file line
            (SetLogInfos LogInfos.ThreadId w)).2).sinks out
      = w.sinks out ++ ["[W][" ++ env.thread_id ++ "]$ MessageTest1\n"] := by
  have hmain : ∀ (m : Nat) (us : List Value) (w0 : World σ),
      ((us.foldl Logger.shl (Logger.ctor env out m file line w0).1).dtor
          (Logger.ctor env out m file line w0).2).sinks out
        = w0.sinks out
            ++ [specHeader env (MessageTypeToString m) w0.cfg.log_infos_ file line
                  ++ "$ " ++ concatText us ++ "\n"] := by
    intro m us w0
    simp only [Logger_foldl_shl, Logger_ctor_fst, Logger_ctor_snd, Logger.dtor, World.record,
      World.write, if_true, String.append_assoc, MessageTypeToString_eq_specTag]
  refine ⟨hmain _ _ _, ?_, ?_⟩
  · simp only [Logger.shl, stringify, String.append_assoc]
  · rw [hmain]
    have hline : specHeader env (MessageTypeToString LogMessageType.Warning)
          (SetLogInfos LogInfos.ThreadId w).cfg.log_infos_ file line ++ "$ "
          ++ concatText [Value.str "Message", Value.str "Test1"] ++ "\n"
        = "[W][" ++ env.thread_id ++ "]$ MessageTest1\n" := by
      apply String.ext
      simp [specHeader, SetLogInfos, LogInfos.ThreadId, LogInfos.TimeStamp,
        LogInfos.FileNameWithLine, concatText, stringify, String.data_append,
        show MessageTypeToString LogMessageType.Warning = "W" from rfl]
    rw [hline]
    rfl

/-! ## Preprocessing of conditions: lemmas -/

theorem expandToken_all_hidden (defs : List MacroDef) (hidden : List String)
    (h0 : (defs.filter (fun d => decide (d.name ∉ hidden))).length = 0) (m : Nat)
    (t : SourceToken) : expandToken defs m hidden t = [t] := by
  cases m with
  | zero => rfl
  | succ k =>
    simp only [expandToken]
    split_ifs with hh
    · rfl
    · cases hf : defs.find? (fun d => d.name == t.spelling) with
      | none => rfl
      | some d =>
        exfalso
        have hmem : d ∈ defs := List.mem_of_find?_eq_some hf
        have hname : d.name = t.spelling := by
          have := List.find?_some hf
          simpa using this
        have hin : d ∈ defs.filter (fun d => decide (d.name ∉ hidden)) := by
          rw [List.mem_filter]
          refine ⟨hmem, ?_⟩
          rw [hname]
          simpa using hh
        have hpos := List.length_pos_of_mem hin
        omega

theorem avail_cons_lt (defs : List MacroDef) (hidden : List String) (d : MacroDef)
    (hmem : d ∈ defs) (hnot : d.name ∉ hidden) :
    (defs.filter (fun x => decide (x.name ∉ d.name :: hidden))).length
      < (defs.filter (fun x => decide (x.name ∉ hidden))).length := by
  have hsplit : defs.filter (fun x => decide (x.name ∉ d.name :: hidden))
      = (defs.filter (fun x => decide (x.name ∉ hidden))).filter
          (fun x => decide (x.name ≠ d.name)) := by
    rw [List.filter_filter]
    congr 1
    funext x
    simp only [List.mem_cons, not_or, ne_eq, Bool.decide_and]
  rw [hsplit, List.length_filter_lt_length_iff_exists]
  refine ⟨d, ?_, ?_⟩
  · rw [List.mem_filter]
    exact ⟨hmem, by simpa using hnot⟩
  · simp

/-- The result of macro replacement is the same for every depth bound that
is at least the number of definitions not yet hidden. -/
theorem expandToken_fuel (defs : List MacroDef) (n : Nat) :
    ∀ (m : Nat) (hidden : List String) (t : SourceToken),
      (defs.filter (fun d => decide (d.name ∉ hidden))).length ≤ n →
      (defs.filter (fun d => decide (d.name ∉ hidden))).length ≤ m →
      expandToken defs n hidden t = expandToken defs m hidden t := by
  induction n with
  | zero =>
    intro m hidden t hn _
    rw [expandToken_all_hidden defs hidden (by omega) m t]
    rfl
  | succ k ih =>
    intro m hidden t hn hm
    cases m with
    | zero =>
      rw [expandToken_all_hidden defs hidden (by omega) (k + 1) t]
      rfl
    | succ j =>
      simp only [expandToken]
      split_ifs with hh
      · rfl
      · cases hf : defs.find? (fun d => d.name == t.spelling) with
        | none => rfl
        | some d =>
          have hmem : d ∈ defs := List.mem_of_find?_eq_some hf
          have hname : d.name = t.spelling := by
            have := List.find?_some hf
            simpa using this
          have hnot : d.name ∉ hidden := by rw [hname]; exact hh
          have hlt := avail_cons_lt defs hidden d hmem hnot
          simp only
          apply List.flatMap_congr
          intro x _
          exact ih j (d.name :: hidden) x (by omega) (by omega)

/-- A depth bound of `defs.length` is enough: any larger bound gives the same
macro replacement. -/
theorem macroReplace_fuel (defs : List MacroDef) (tokens : List SourceToken) (n : Nat)
    (hn : defs.length ≤ n) :
    tokens.flatMap (expandToken defs n []) = macroReplace defs tokens := by
  unfold macroReplace
  apply List.flatMap_congr
  intro t _
  have hle : (defs.filter (fun d => decide (d.name ∉ ([] : List String)))).length
      ≤ defs.length := List.length_filter_le _ _
  exact expandToken_fuel defs n defs.length [] t (by omega) hle

/-- C10: guard with fixed message and `return`. For each of the seven log
statements with its severity enabled (and build mode Debug for the
debug-only variants), TimeStamp and FileNameWithLine disabled, every literal
message `m` and return value `v`, `CHECK_xLOG_RETURN(false, m, v)` ends the
enclosing block with `return v` whatever statements follow it (none of them
runs), and leaves the streams exactly as the log statement `<< m` does, both
for the statement the guard is built on and for the plain statement of the
same severity: one line on the severity's sink. -/
theorem C10_guard_fixed_message_return {σ ρ ε : Type} (st : LogStatement) (env1 env2 : Env)
    (file1 file2 : String) (line1 line2 : Int) (condition : Condition σ) (m : Value)
    (v : Option ρ) (w : World σ) (rest : List (Stmt σ ρ ε))
    (hc : (condition.eval w.user).1 = false)
    (hsev : IsSeverityEnabled st.severity w.cfg)
    (hdebug : st.debugOnly = true → w.cfg.log_type_ = LogType.Debug)
    (hts : w.cfg.log_infos_ &&& LogInfos.TimeStamp = 0)
    (hfl : w.cfg.log_infos_ &&& LogInfos.FileNameWithLine = 0)
    (htid : env1.thread_id = env2.thread_id) :
    runBlock (CHECK_LOG_RETURN st env1 file1 line1 condition (Arg.pure m) v :: rest) w
      = (Flow.ret v, (CHECK_LOG_RETURN st env1 file1 line1 condition (Arg.pure m) v w
          : Flow ρ ε × World σ).2)
    ∧ (CHECK_LOG_RETURN st env1 file1 line1 condition (Arg.pure m) v w
        : Flow ρ ε × World σ).2.sinks
      = (st.run env2 file2 line2 [Arg.pure m] w).sinks
    ∧ (CHECK_LOG_RETURN st env1 file1 line1 condition (Arg.pure m) v w
        : Flow ρ ε × World σ).2.sinks
      = (st.plain.run env2 file2 line2 [Arg.pure m] w).sinks
    ∧ (CHECK_LOG_RETURN st env1 file1 line1 condition (Arg.pure m) v w
        : Flow ρ ε × World σ).2.sinks (st.sink w.cfg)
      = w.sinks (st.sink w.cfg)
          ++ [specHeader env1 (MessageTypeToString st.severity) w.cfg.log_infos_ file1 line1
                ++ "$ " ++ stringify m ++ "\n"] := by
  have hl := LogStatement_sinks_literal st env1 env2 file1 file2 line1 line2 m w
    (condition.eval w.user).2 ⟨hdebug, hsev⟩ hts hfl htid
  have hr : (CHECK_LOG_RETURN st env1 file1 line1 condition (Arg.pure m) v w
        : Flow ρ ε × World σ)
      = (Flow.ret v, st.run env1 file1 line1 [Arg.pure m]
          { w with user := (condition.eval w.user).2 }) := by
    rw [CHECK_LOG_RETURN_eq, PRIVATE_CHECK_false _ _ _ _ _ hc]; rfl
  refine ⟨?_, ?_, ?_, ?_⟩
  · simp only [runBlock, hr]
  · rw [hr]; exact hl.1
  · rw [hr]; exact hl.2.1
  · rw [hr]; exact hl.2.2

/-- C10, witness of the specification: under the test fixture (Debug mode,
info mask {ThreadId}, every severity enabled),
`CHECK_ILOG_RETURN(false, "Some message2", 12)` followed by `return 2`
returns 12 and writes what `LOG_INFO << "Some message2"` writes. -/
theorem C10_guard_fixed_message_return_witness :
    ((⟨"false", fun u => (false, u)⟩ : Condition Unit).eval
        (SetLogInfos LogInfos.ThreadId (World.initial false ())).user).1 = false
    ∧ (runBlock
        [CHECK_LOG_RETURN LogStatement.info ⟨"t1", "7"⟩ "a.cpp" 366
           ⟨"false", fun u => (false, u)⟩ (Arg.pure (Value.str "Some message2")) (some 12),
         fun w => (Flow.ret (some 2), w)]
        (SetLogInfos LogInfos.ThreadId (World.initial false ()))
          : Flow Nat Unit × World Unit).1 = Flow.ret (some 12)
    ∧ (runBlock
        [CHECK_LOG_RETURN LogStatement.info ⟨"t1", "7"⟩ "a.cpp" 366
           ⟨"false", fun u => (false, u)⟩ (Arg.pure (Value.str "Some message2")) (some 12),
         fun w => (Flow.ret (some 2), w)]
        (SetLogInfos LogInfos.ThreadId (World.initial false ()))
          : Flow Nat Unit × World Unit).2.sinks cout = ["[I][7]$ Some message2\n"]
    ∧ (LOG_INFO ⟨"t0", "7"⟩ "a.cpp" 362 [Arg.pure (Value.str "Some message2")]
        (SetLogInfos LogInfos.ThreadId (World.initial false ()))).sinks cout
        = ["[I][7]$ Some message2\n"] := by
  have h := C10_guard_fixed_message_return (ρ := Nat) (ε := Unit) LogStatement.info
    ⟨"t1", "7"⟩ ⟨"t0", "7"⟩ "a.cpp" "a.cpp" 366 362 ⟨"false", fun u => (false, u)⟩
    (Value.str "Some message2") (some 12)
    (SetLogInfos LogInfos.ThreadId (World.initial false ()))
    [fun w => (Flow.ret (some 2), w)] rfl (by decide) (by decide) (by decide) (by decide) rfl
  refine ⟨rfl, ?_, ?_, by decide⟩
  · rw [h.1]
  · rw [h.1]; exact h.2.2.2.trans (by decide)

/-! ## Claims, continued -/

/-- In Debug mode a log statement and the plain statement of the same
severity leave the same configuration, streams and caller state. -/
theorem LogStatement_run_plain_of_debug {σ : Type} (st : LogStatement) (env : Env)
    (file : String) (line : Int) (args : List (Arg σ)) (w : World σ)
    (hd : w.cfg.log_type_ = LogType.Debug) :
    (st.run env file line args w).cfg = (st.plain.run env file line args w).cfg
    ∧ (st.run env file line args w).sinks = (st.plain.run env file line args w).sinks
    ∧ (st.run env file line args w).user = (st.plain.run env file line args w).user := by
  have hp := LogStatement_plain_facts st
  have hiff : st.plain.gateOpen w.cfg ↔ st.gateOpen w.cfg := by
    simp only [LogStatement.gateOpen, IsSeverityEnabled, hp.1, hp.2.1, hd, implies_true,
      Bool.false_eq_true, false_implies]
  rw [LogStatement_run_eq, LogStatement_run_eq]
  by_cases hg : st.gateOpen w.cfg
  · rw [if_pos hg, if_pos (hiff.mpr hg)]
    simp only [LogStatement.written, LogStatement.line, hp.1, hp.2.2, and_self]
  · rw [if_neg hg, if_neg (fun h => hg (hiff.mp h))]
    simp only [LogStatement.skipped, and_self]

/-- C11: in Debug mode the debug-only gate is the severity gate. For every
severity mask, info mask, file, line and chain of appended expressions,
`DEBUG_LOG_INFO`, `DEBUG_LOG_WARNING` and `DEBUG_LOG_ERROR` leave every stream
and the caller's state exactly as `LOG_INFO`, `LOG_WARNING` and `LOG_ERROR`
do (same text on the same sink); in particular they write nothing when the
severity bit is disabled. -/
theorem C11_debug_statements_in_debug_mode {σ : Type} (env : Env) (file : String)
    (line : Int) (args : List (Arg σ)) (w : World σ)
    (hd : w.cfg.log_type_ = LogType.Debug) :
    ((DEBUG_LOG_INFO env file line args w).sinks = (LOG_INFO env file line args w).sinks
      ∧ (DEBUG_LOG_INFO env file line args w).user = (LOG_INFO env file line args w).user)
    ∧ ((DEBUG_LOG_WARNING env file line args w).sinks
          = (LOG_WARNING env file line args w).sinks
      ∧ (DEBUG_LOG_WARNING env file line args w).user
          = (LOG_WARNING env file line args w).user)
    ∧ ((DEBUG_LOG_ERROR env file line args w).sinks = (LOG_ERROR env file line args w).sinks
      ∧ (DEBUG_LOG_ERROR env file line args w).user = (LOG_ERROR env file line args w).user)
    ∧ (LogMessageType.Info &&& w.cfg.log_message_types_ = 0 →
        (DEBUG_LOG_INFO env file line args w).sinks = w.sinks)
    ∧ (LogMessageType.Warning &&& w.cfg.log_message_types_ = 0 →
        (DEBUG_LOG_WARNING env file line args w).sinks = w.sinks)
    ∧ (LogMessageType.Error &&& w.cfg.log_message_types_ = 0 →
        (DEBUG_LOG_ERROR env file line args w).sinks = w.sinks)
    ∧ (LogMessageType.Info &&& w.cfg.log_message_types_ ≠ 0 →
        (DEBUG_LOG_INFO env file line args w).sinks w.cfg.log_stream_
          = w.sinks w.cfg.log_stream_
              ++ [LogStatement.info.line env file line args w])
    ∧ (LogMessageType.Warning &&& w.cfg.log_message_types_ ≠ 0 →
        (DEBUG_LOG_WARNING env file line args w).sinks w.cfg.log_stream_
          = w.sinks w.cfg.log_stream_
              ++ [LogStatement.warning.line env file line args w])
    ∧ (LogMessageType.Error &&& w.cfg.log_message_types_ ≠ 0 →
        (DEBUG_LOG_ERROR env file line args w).sinks w.cfg.elog_stream_
          = w.sinks w.cfg.elog_stream_
              ++ [LogStatement.error.line env file line args w]) := by
  have hi := LogStatement_run_plain_of_debug LogStatement.debug_info env file line args w hd
  have hw := LogStatement_run_plain_of_debug LogStatement.debug_warning env file line args w hd
  have he := LogStatement_run_plain_of_debug LogStatement.debug_error env file line args w hd
  have hclosed : ∀ st : LogStatement, st.severity &&& w.cfg.log_message_types_ = 0 →
      (st.run env file line args w).sinks = w.sinks := by
    intro st h0
    have hg : ¬ st.gateOpen w.cfg := fun h => h.2 h0
    rw [LogStatement_run_eq, if_neg hg]
    rfl
  have hopen : ∀ st : LogStatement, st.severity &&& w.cfg.log_message_types_ ≠ 0 →
      (st.plain.run env file line args w).sinks (st.plain.sink w.cfg)
        = w.sinks (st.plain.sink w.cfg) ++ [st.plain.line env file line args w] := by
    intro st h1
    have hp := LogStatement_plain_facts st
    have hg : st.plain.gateOpen w.cfg := by
      refine ⟨fun h => ?_, ?_⟩
      · rw [hp.2.1] at h; exact absurd h (by decide)
      · simpa only [IsSeverityEnabled, hp.1] using h1
    exact (LogStatement_written_sinks st.plain env file line args w hg).1
  refine ⟨⟨hi.2.1, hi.2.2⟩, ⟨hw.2.1, hw.2.2⟩, ⟨he.2.1, he.2.2⟩,
    hclosed LogStatement.debug_info, hclosed LogStatement.debug_warning,
    hclosed LogStatement.debug_error, ?_, ?_, ?_⟩
  · intro h1
    have h := hopen LogStatement.debug_info h1
    have e : (DEBUG_LOG_INFO env file line args w).sinks
        = (LogStatement.info.run env file line args w).sinks := hi.2.1
    rw [e]; exact h
  · intro h1
    have h := hopen LogStatement.debug_warning h1
    have e : (DEBUG_LOG_WARNING env file line args w).sinks
        = (LogStatement.warning.run env file line args w).sinks := hw.2.1
    rw [e]; exact h
  · intro h1
    have h := hopen LogStatement.debug_error h1
    have e : (DEBUG_LOG_ERROR env file line args w).sinks
        = (LogStatement.error.run env file line args w).sinks := he.2.1
    rw [e]; exact h

/-- C11, witness of the specification (`TestDebugLogsInRelease`): in Debug
mode with only FatalError enabled and both channels on stream 5, the three
debug statements write nothing. -/
theorem C11_debug_statements_in_debug_mode_witness :
    (SetELogStream 5 (SetLogStream 5 (SetLogMessageTypes LogMessageType.FatalError
        (SetLogType LogType.Debug (World.initial false ()))))).cfg.log_type_ = LogType.Debug
    ∧ (DEBUG_LOG_ERROR ⟨"t", "7"⟩ "a.cpp" 295 [Arg.pure (Value.str "Some message2")]
        (DEBUG_LOG_WARNING ⟨"t", "7"⟩ "a.cpp" 294 [Arg.pure (Value.str "Some message3")]
          (DEBUG_LOG_INFO ⟨"t", "7"⟩ "a.cpp" 293 [Arg.pure (Value.str "Some message1")]
            (SetELogStream 5 (SetLogStream 5 (SetLogMessageTypes LogMessageType.FatalError
              (SetLogType LogType.Debug (World.initial false ())))))))).sinks 5 = []
    ∧ (DEBUG_LOG_INFO ⟨"t", "7"⟩ "a.cpp" 293 [Arg.pure (Value.str "Some message1")]
        (SetELogStream 5 (SetLogStream 5 (SetLogMessageTypes LogMessageType.FatalError
          (SetLogType LogType.Debug (World.initial false ())))))).sinks
      = (SetELogStream 5 (SetLogStream 5 (SetLogMessageTypes LogMessageType.FatalError
          (SetLogType LogType.Debug (World.initial false ()))))).sinks :=
  ⟨rfl, by decide,
   (C11_debug_statements_in_debug_mode ⟨"t", "7"⟩ "a.cpp" 293
      [Arg.pure (Value.str "Some message1")]
      (SetELogStream 5 (SetLogStream 5 (SetLogMessageTypes LogMessageType.FatalError
        (SetLogType LogType.Debug (World.initial false ()))))) rfl).2.2.2.1 (by decide)⟩

theorem LogStatement_run_cfg {σ : Type} (st : LogStatement) (env : Env) (file : String)
    (line : Int) (args : List (Arg σ)) (w : World σ) :
    (st.run env file line args w).cfg = w.cfg := by
  rw [LogStatement_run_eq]
  by_cases hg : st.gateOpen w.cfg
  · rw [if_pos hg]; rfl
  · rw [if_neg hg]; rfl

theorem runCalls_cfg {σ : Type} (calls : List (LogCall σ)) (w : World σ) :
    (runCalls calls w).cfg = w.cfg := by
  induction calls generalizing w with
  | nil => rfl
  | cons c rest ih =>
    simp only [runCalls, ih, LogCall.run, LogStatement_run_cfg]

/-- What a log statement adds to a stream: its line on its sink when both
gates are open, nothing otherwise. -/
theorem LogStatement_newChunks {σ : Type} (st : LogStatement) (env : Env) (file : String)
    (line : Int) (args : List (Arg σ)) (w : World σ) (s : Stream) :
    newChunks w (st.run env file line args w) s =
      if st.gateOpen w.cfg ∧ s = st.sink w.cfg then
        [specLine env (specTag st.severity) w.cfg.log_infos_ file line
          (concatText (evalArgs args w.user).1)]
      else [] := by
  rw [LogStatement_run_eq]
  by_cases hg : st.gateOpen w.cfg
  · rw [if_pos hg]
    by_cases hs : s = st.sink w.cfg
    · simp only [newChunks, LogStatement.written, LogStatement.line, hs, if_true, hg, and_self,
        List.drop_left]
    · simp only [newChunks, LogStatement.written, if_neg hs, hs, and_false, if_false,
        List.drop_length]
  · rw [if_neg hg]
    simp only [newChunks, LogStatement.skipped, hg, false_and, if_false, List.drop_length]

theorem evalArgs_pure {σ : Type} (vs : List Value) (u : σ) :
    evalArgs (vs.map Arg.pure) u = (vs, u) := by
  induction vs with
  | nil => rfl
  | cons v rest ih => simp only [List.map, evalArgs, ih, Arg.pure]

/-- What a logging guard adds to a stream, and how it ends: nothing and
`next` when the condition is true, what its log statement adds and the
action when it is false. -/
theorem PRIVATE_CHECK_newChunks {σ ρ ε : Type} (st : LogStatement) (env : Env) (file : String)
    (line : Int) (condition : Condition σ) (message : Arg σ) (action : Flow ρ ε)
    (w : World σ) (s : Stream) :
    newChunks w (PRIVATE_CHECK condition (st.run env file line) message action w).2 s
        = (if (condition.eval w.user).1 = true then []
           else if st.gateOpen w.cfg ∧ s = st.sink w.cfg then
             [specLine env (specTag st.severity) w.cfg.log_infos_ file line
               (concatText (evalArgs [message] (condition.eval w.user).2).1)]
           else [])
    ∧ (PRIVATE_CHECK condition (st.run env file line) message action w).1
        = (if (condition.eval w.user).1 = true then Flow.next else action) := by
  by_cases hc : (condition.eval w.user).1 = true
  · rw [PRIVATE_CHECK_true _ _ _ _ _ hc, if_pos hc, if_pos hc]
    exact ⟨List.drop_length _, rfl⟩
  · have hc0 : (condition.eval w.user).1 = false := by simpa using hc
    rw [PRIVATE_CHECK_false _ _ _ _ _ hc0, if_neg hc, if_neg hc]
    refine ⟨?_, rfl⟩
    exact LogStatement_newChunks st env file line [message] (condition.after w) s

/-- C12: statements leak no state and re-enabling restores behaviour. Every
log statement, every logging guard and every sequence of log statements
leaves the five configuration cells (build mode, severity mask, info mask,
both sink bindings) unchanged. Hence after `SetLogMessageTypes(m)`, any
sequence of log statements and `SetLogMessageTypes` of the former mask, the
configuration is the former one and a statement writes to every stream the
same text as it writes when run directly under the former configuration, at
the same time and on the same thread: for arbitrary appended expressions
evaluated in the caller's state reached, and for literal operands whatever
the caller's state. The same holds of the guard construct `PRIVATE_CHECK`
built on the statement, with any message and action. -/
theorem C12_no_state_leak {σ ρ ε : Type} (st : LogStatement) (env : Env) (file : String)
    (line : Int) (args : List (Arg σ)) (vs : List Value) (condition : Condition σ)
    (message : Arg σ) (v : Option ρ) (w : World σ) (m : Nat) (calls : List (LogCall σ))
    (s : Stream) :
    (st.run env file line args w).cfg = w.cfg
    ∧ (CHECK_LOG_RETURN st env file line condition message v w
        : Flow ρ ε × World σ).2.cfg = w.cfg
    ∧ (CHECK_LOG_CONTINUE st env file line condition message w
        : Flow ρ ε × World σ).2.cfg = w.cfg
    ∧ (CHECK_LOG_AUTO_RETURN st env file line condition v w
        : Flow ρ ε × World σ).2.cfg = w.cfg
    ∧ (CHECK_LOG_AUTO_CONTINUE st env file line condition w
        : Flow ρ ε × World σ).2.cfg = w.cfg
    ∧ (runCalls calls w).cfg = w.cfg
    ∧ (SetLogMessageTypes w.cfg.log_message_types_
        (runCalls calls (SetLogMessageTypes m w))).cfg = w.cfg
    ∧ newChunks
        (SetLogMessageTypes w.cfg.log_message_types_ (runCalls calls (SetLogMessageTypes m w)))
        (st.run env file line args
          (SetLogMessageTypes w.cfg.log_message_types_
            (runCalls calls (SetLogMessageTypes m w)))) s
      = newChunks
          { w with user := (SetLogMessageTypes w.cfg.log_message_types_
              (runCalls calls (SetLogMessageTypes m w))).user }
          (st.run env file line args
            { w with user := (SetLogMessageTypes w.cfg.log_message_types_
                (runCalls calls (SetLogMessageTypes m w))).user }) s
    ∧ newChunks
        (SetLogMessageTypes w.cfg.log_message_types_ (runCalls calls (SetLogMessageTypes m w)))
        (st.run env file line (vs.map Arg.pure)
          (SetLogMessageTypes w.cfg.log_message_types_
            (runCalls calls (SetLogMessageTypes m w)))) s
      = newChunks w (st.run env file line (vs.map Arg.pure) w) s
    ∧ (∀ (msg : Arg σ) (action : Flow ρ ε),
        newChunks
            (SetLogMessageTypes w.cfg.log_message_types_
              (runCalls calls (SetLogMessageTypes m w)))
            (PRIVATE_CHECK condition (st.run env file line) msg action
              (SetLogMessageTypes w.cfg.log_message_types_
                (runCalls calls (SetLogMessageTypes m w)))).2 s
          = newChunks
              { w with user := (SetLogMessageTypes w.cfg.log_message_types_
                  (runCalls calls (SetLogMessageTypes m w))).user }
              (PRIVATE_CHECK condition (st.run env file line) msg action
                { w with user := (SetLogMessageTypes w.cfg.log_message_types_
                    (runCalls calls (SetLogMessageTypes m w))).user }).2 s
        ∧ (PRIVATE_CHECK condition (st.run env file line) msg action
              (SetLogMessageTypes w.cfg.log_message_types_
                (runCalls calls (SetLogMessageTypes m w)))).1
          = (PRIVATE_CHECK condition (st.run env file line) msg action
              { w with user := (SetLogMessageTypes w.cfg.log_message_types_
                  (runCalls calls (SetLogMessageTypes m w))).user }).1) := by
  have hguard : ∀ (msg : Arg σ) (action : Flow ρ ε),
      (PRIVATE_CHECK condition (st.run env file line) msg action w).2.cfg = w.cfg := by
    intro msg action
    by_cases hc : (condition.eval w.user).1 = true
    · rw [PRIVATE_CHECK_true _ _ _ _ _ hc]; rfl
    · have hc0 : (condition.eval w.user).1 = false := by simpa using hc
      rw [PRIVATE_CHECK_false _ _ _ _ _ hc0]
      exact LogStatement_run_cfg _ _ _ _ _ _
  have hcfg : (SetLogMessageTypes w.cfg.log_message_types_
      (runCalls calls (SetLogMessageTypes m w))).cfg = w.cfg := by
    simp only [SetLogMessageTypes, runCalls_cfg]
  refine ⟨LogStatement_run_cfg _ _ _ _ _ _, ?_, ?_, ?_, ?_, runCalls_cfg _ _, hcfg, ?_, ?_, ?_⟩
  · rw [CHECK_LOG_RETURN_eq]; exact hguard _ _
  · rw [CHECK_LOG_CONTINUE_eq]; exact hguard _ _
  · rw [CHECK_LOG_AUTO_RETURN_eq]; exact hguard _ _
  · rw [CHECK_LOG_AUTO_CONTINUE_eq]; exact hguard _ _
  · rw [LogStatement_newChunks, LogStatement_newChunks, hcfg]
  · rw [LogStatement_newChunks, LogStatement_newChunks, hcfg, evalArgs_pure, evalArgs_pure]
  · intro msg action
    have h3 := PRIVATE_CHECK_newChunks st env file line condition msg action
      (SetLogMessageTypes w.cfg.log_message_types_ (runCalls calls (SetLogMessageTypes m w))) s
    have hd := PRIVATE_CHECK_newChunks st env file line condition msg action
      { w with user := (SetLogMessageTypes w.cfg.log_message_types_
          (runCalls calls (SetLogMessageTypes m w))).user } s
    rw [hcfg] at h3
    exact ⟨h3.1.trans hd.1.symm, h3.2.trans hd.2.symm⟩

/-- C12, witness: with Info disabled a `LOG_INFO` is suppressed; once the
former mask is set again, `LOG_INFO << "Some message"` adds the same line as
when run at the start. -/
theorem C12_no_state_leak_witness :
    newChunks
        (SetLogMessageTypes (World.initial false ()).cfg.log_message_types_
          (runCalls [⟨LogStatement.info, ⟨"t", "7"⟩, "a.cpp", 310,
              [Arg.pure (Value.str "Some message1")]⟩]
            (SetLogMessageTypes LogMessageType.Error (World.initial false ()))))
        (LogStatement.info.run ⟨"t", "7"⟩ "a.cpp" 317
          ([Value.str "Some message"].map Arg.pure)
          (SetLogMessageTypes (World.initial false ()).cfg.log_message_types_
            (runCalls [⟨LogStatement.info, ⟨"t", "7"⟩, "a.cpp", 310,
                [Arg.pure (Value.str "Some message1")]⟩]
              (SetLogMessageTypes LogMessageType.Error (World.initial false ()))))) cout
      = ["[I][(GMT)t][7][a.cpp:317]$ Some message\n"]
    ∧ (runCalls [⟨LogStatement.info, ⟨"t", "7"⟩, "a.cpp", 310,
          [Arg.pure (Value.str "Some message1")]⟩]
        (SetLogMessageTypes LogMessageType.Error (World.initial false ()))).sinks cout = [] :=
  ⟨(C12_no_state_leak (ρ := Nat) (ε := Unit) LogStatement.info ⟨"t", "7"⟩ "a.cpp" 317 []
      [Value.str "Some message"] ⟨"true", fun u => (true, u)⟩ (Arg.pure (Value.str ""))
      none (World.initial false ()) LogMessageType.Error
      [⟨LogStatement.info, ⟨"t", "7"⟩, "a.cpp", 310, [Arg.pure (Value.str "Some message1")]⟩]
      cout).2.2.2.2.2.2.2.2.1.trans (by decide),
   by decide⟩

theorem String_join_append_singleton (l : List String) (x : String) :
    String.join (l ++ [x]) = String.join l ++ x := by
  simp [String.join]

/-- C13: exactly one append-only write per statement. For every content of
the streams, a log statement whose gates are open adds exactly one chunk,
its line, after the previous content of its sink (which is kept as it was)
and changes no other stream; the line is the complete buffer of the record
followed by `"\n"`. Nothing is written when the record is created or while
values are appended: the single write is made by the destructor. A
suppressed statement changes no stream. -/
theorem C13_one_write_per_statement {σ : Type} (st : LogStatement) (env : Env)
    (file : String) (line : Int) (args : List (Arg σ)) (w : World σ) (l : Logger)
    (out : Stream) (m : Nat) :
    (st.gateOpen w.cfg →
      (st.run env file line args w).sinks (st.sink w.cfg)
          = w.sinks (st.sink w.cfg) ++ [st.line env file line args w]
      ∧ (st.run env file line args w).content (st.sink w.cfg)
          = w.content (st.sink w.cfg) ++ st.line env file line args w
      ∧ (∀ s, s ≠ st.sink w.cfg → (st.run env file line args w).sinks s = w.sinks s)
      ∧ st.line env file line args w
          = ((Logger.ctor env (st.sink w.cfg) st.severity file line w).1.shlAll args
              (Logger.ctor env (st.sink w.cfg) st.severity file line w).2).1.ss_ ++ "\n")
    ∧ (¬ st.gateOpen w.cfg → (st.run env file line args w).sinks = w.sinks)
    ∧ (Logger.ctor env out m file line w).2.sinks = w.sinks
    ∧ (l.shlAll args w).2.sinks = w.sinks
    ∧ (l.dtor w).sinks l.out_str_ = w.sinks l.out_str_ ++ [l.ss_ ++ "\n"]
    ∧ (∀ s, s ≠ l.out_str_ → (l.dtor w).sinks s = w.sinks s) := by
  refine ⟨?_, ?_, ?_, ?_, ?_, ?_⟩
  · intro hg
    have hw := LogStatement_written_sinks st env file line args w hg
    refine ⟨hw.1, ?_, hw.2, ?_⟩
    · simp only [World.content, hw.1, String_join_append_singleton]
    · simp only [LogStatement.line, specLine, Logger_ctor_fst, Logger_ctor_snd,
        Logger_shlAll_eq, String.append_assoc]
  · intro hg
    rw [LogStatement_run_eq, if_neg hg]
    rfl
  · rw [Logger_ctor_snd]
  · rw [Logger_shlAll_eq]
  · simp only [Logger.dtor, World.record, World.write, if_true]
  · intro s hs
    simp only [Logger.dtor, World.record, World.write, if_neg hs]

/-- C13, witness (`TestEMacros`): `LOG_ERROR` then `DEBUG_LOG_ERROR` on the
same stream leave two chunks, the second after the first. -/
theorem C13_one_write_per_statement_witness :
    LogStatement.debug_error.gateOpen
        (LOG_ERROR ⟨"t", "7"⟩ "a.cpp" 199 [Arg.pure (Value.str "Some message")]
          (SetELogStream 5 (SetLogInfos 5 (World.initial false ())))).cfg
    ∧ (LogStatement.debug_error.run ⟨"t", "7"⟩ "a.cpp" 202
          [Arg.pure (Value.str "Some message debug")]
          (LOG_ERROR ⟨"t", "7"⟩ "a.cpp" 199 [Arg.pure (Value.str "Some message")]
            (SetELogStream 5 (SetLogInfos 5 (World.initial false ()))))).sinks 5
        = ["[E][7][a.cpp:199]$ Some message\n", "[E][7][a.cpp:202]$ Some message debug\n"]
    ∧ (LogStatement.debug_error.run ⟨"t", "7"⟩ "a.cpp" 202
          [Arg.pure (Value.str "Some message debug")]
          (LOG_ERROR ⟨"t", "7"⟩ "a.cpp" 199 [Arg.pure (Value.str "Some message")]
            (SetELogStream 5 (SetLogInfos 5 (World.initial false ()))))).content 5
        = "[E][7][a.cpp:199]$ Some message\n[E][7][a.cpp:202]$ Some message debug\n" := by
  have h := (C13_one_write_per_statement LogStatement.debug_error ⟨"t", "7"⟩ "a.cpp" 202
    [Arg.pure (Value.str "Some message debug")]
    (LOG_ERROR ⟨"t", "7"⟩ "a.cpp" 199 [Arg.pure (Value.str "Some message")]
      (SetELogStream 5 (SetLogInfos 5 (World.initial false ()))))
    ⟨"", 5⟩ 5 1).1 (by decide)
  exact ⟨by decide, h.1.trans (by decide), by decide⟩

theorem LogStatement_run_sameAs {σ : Type} (st : LogStatement) (env : Env) (file : String)
    (line : Int) (args : List (Arg σ)) (w1 w2 : World σ) (h : w1.sameAs w2) :
    (st.run env file line args w1).sameAs (st.run env file line args w2) := by
  obtain ⟨c1, s1, u1, t1⟩ := w1
  obtain ⟨c2, s2, u2, t2⟩ := w2
  obtain ⟨hc, hs, hu⟩ := h
  simp only at hc hs hu
  subst hc hs hu
  rw [LogStatement_run_eq, LogStatement_run_eq]
  by_cases hg : st.gateOpen c1
  · simp only [hg, if_true, LogStatement.written, LogStatement.line, World.sameAs, and_self]
  · simp only [hg, if_false, LogStatement.skipped, World.sameAs, and_self]

theorem PRIVATE_CHECK_sameAs {σ ρ ε : Type} (st : LogStatement) (env : Env) (file : String)
    (line : Int) (condition : Condition σ) (message : Arg σ) (action : Flow ρ ε)
    (w1 w2 : World σ) (h : w1.sameAs w2) :
    (PRIVATE_CHECK condition (st.run env file line) message action w1).1
        = (PRIVATE_CHECK condition (st.run env file line) message action w2).1
    ∧ (PRIVATE_CHECK condition (st.run env file line) message action w1).2.sameAs
        (PRIVATE_CHECK condition (st.run env file line) message action w2).2 := by
  have hu : w1.user = w2.user := h.2.2
  have hafter : (condition.after w1).sameAs (condition.after w2) := by
    simp only [Condition.after, World.sameAs, h.1, h.2.1, hu, and_self]
  by_cases hc : (condition.eval w1.user).1 = true
  · have hc2 : (condition.eval w2.user).1 = true := by rw [← hu]; exact hc
    rw [PRIVATE_CHECK_true _ _ _ _ _ hc, PRIVATE_CHECK_true _ _ _ _ _ hc2]
    exact ⟨rfl, hafter⟩
  · have hc1 : (condition.eval w1.user).1 = false := by simpa using hc
    have hc2 : (condition.eval w2.user).1 = false := by rw [← hu]; exact hc1
    rw [PRIVATE_CHECK_false _ _ _ _ _ hc1, PRIVATE_CHECK_false _ _ _ _ _ hc2]
    exact ⟨rfl, LogStatement_run_sameAs _ _ _ _ _ _ _ hafter⟩

/-- C14: setter idempotence. For each of the five setters and every value,
calling the setter twice with the value leaves the same configuration,
streams and caller state as calling it once, and calling it with the current
value of its cell leaves them as they were; states that agree in this way
are treated alike by every subsequent log statement and logging guard (same
text on the same streams, same action). -/
theorem C14_setter_idempotence {σ ρ ε : Type} (w : World σ) (v : Nat) (s : Stream)
    (st : LogStatement) (env : Env) (file : String) (line : Int) (args : List (Arg σ))
    (condition : Condition σ) (message : Arg σ) (r : Option ρ) :
    ((SetLogType v (SetLogType v w)).sameAs (SetLogType v w)
      ∧ (SetLogMessageTypes v (SetLogMessageTypes v w)).sameAs (SetLogMessageTypes v w)
      ∧ (SetLogInfos v (SetLogInfos v w)).sameAs (SetLogInfos v w)
      ∧ (SetLogStream s (SetLogStream s w)).sameAs (SetLogStream s w)
      ∧ (SetELogStream s (SetELogStream s w)).sameAs (SetELogStream s w))
    ∧ ((SetLogType w.cfg.log_type_ w).sameAs w
      ∧ (SetLogMessageTypes w.cfg.log_message_types_ w).sameAs w
      ∧ (SetLogInfos w.cfg.log_infos_ w).sameAs w
      ∧ (SetLogStream w.cfg.log_stream_ w).sameAs w
      ∧ (SetELogStream w.cfg.elog_stream_ w).sameAs w)
    ∧ (∀ w1 w2 : World σ, w1.sameAs w2 →
        (st.run env file line args w1).sameAs (st.run env file line args w2)
        ∧ (CHECK_LOG_RETURN st env file line condition message r w1 : Flow ρ ε × World σ).1
            = (CHECK_LOG_RETURN st env file line condition message r w2).1
        ∧ (CHECK_LOG_RETURN st env file line condition message r w1
              : Flow ρ ε × World σ).2.sameAs
            (CHECK_LOG_RETURN st env file line condition message r w2 : Flow ρ ε × World σ).2
        ∧ (CHECK_LOG_CONTINUE st env file line condition message w1 : Flow ρ ε × World σ).1
            = (CHECK_LOG_CONTINUE st env file line condition message w2).1
        ∧ (CHECK_LOG_CONTINUE st env file line condition message w1
              : Flow ρ ε × World σ).2.sameAs
            (CHECK_LOG_CONTINUE st env file line condition message w2 : Flow ρ ε × World σ).2
        ∧ (CHECK_LOG_AUTO_RETURN st env file line condition r w1 : Flow ρ ε × World σ).1
            = (CHECK_LOG_AUTO_RETURN st env file line condition r w2).1
        ∧ (CHECK_LOG_AUTO_RETURN st env file line condition r w1
              : Flow ρ ε × World σ).2.sameAs
            (CHECK_LOG_AUTO_RETURN st env file line condition r w2 : Flow ρ ε × World σ).2
        ∧ (CHECK_LOG_AUTO_CONTINUE st env file line condition w1 : Flow ρ ε × World σ).1
            = (CHECK_LOG_AUTO_CONTINUE st env file line condition w2).1
        ∧ (CHECK_LOG_AUTO_CONTINUE st env file line condition w1
              : Flow ρ ε × World σ).2.sameAs
            (CHECK_LOG_AUTO_CONTINUE st env file line condition w2 : Flow ρ ε × World σ).2) := by
  refine ⟨⟨⟨rfl, rfl, rfl⟩, ⟨rfl, rfl, rfl⟩, ⟨rfl, rfl, rfl⟩, ⟨rfl, rfl, rfl⟩, ⟨rfl, rfl, rfl⟩⟩,
    ⟨⟨rfl, rfl, rfl⟩, ⟨rfl, rfl, rfl⟩, ⟨rfl, rfl, rfl⟩, ⟨rfl, rfl, rfl⟩, ⟨rfl, rfl, rfl⟩⟩, ?_⟩
  intro w1 w2 h
  refine ⟨LogStatement_run_sameAs _ _ _ _ _ _ _ h, ?_, ?_, ?_, ?_, ?_, ?_, ?_, ?_⟩
  · rw [CHECK_LOG_RETURN_eq]; exact (PRIVATE_CHECK_sameAs _ _ _ _ _ _ _ _ _ h).1
  · rw [CHECK_LOG_RETURN_eq]; exact (PRIVATE_CHECK_sameAs _ _ _ _ _ _ _ _ _ h).2
  · rw [CHECK_LOG_CONTINUE_eq]; exact (PRIVATE_CHECK_sameAs _ _ _ _ _ _ _ _ _ h).1
  · rw [CHECK_LOG_CONTINUE_eq]; exact (PRIVATE_CHECK_sameAs _ _ _ _ _ _ _ _ _ h).2
  · rw [CHECK_LOG_AUTO_RETURN_eq]; exact (PRIVATE_CHECK_sameAs _ _ _ _ _ _ _ _ _ h).1
  · rw [CHECK_LOG_AUTO_RETURN_eq]; exact (PRIVATE_CHECK_sameAs _ _ _ _ _ _ _ _ _ h).2
  · rw [CHECK_LOG_AUTO_CONTINUE_eq]; exact (PRIVATE_CHECK_sameAs _ _ _ _ _ _ _ _ _ h).1
  · rw [CHECK_LOG_AUTO_CONTINUE_eq]; exact (PRIVATE_CHECK_sameAs _ _ _ _ _ _ _ _ _ h).2

/-- C14, witness: setting the info mask to {ThreadId} twice or once makes
`LOG_INFO << "Some message"` write the same line. -/
theorem C14_setter_idempotence_witness :
    (SetLogInfos LogInfos.ThreadId (SetLogInfos LogInfos.ThreadId
        (World.initial false ()))).sameAs
      (SetLogInfos LogInfos.ThreadId (World.initial false ()))
    ∧ (LogStatement.info.run ⟨"t", "7"⟩ "a.cpp" 246 [Arg.pure (Value.str "Some message")]
        (SetLogInfos LogInfos.ThreadId (SetLogInfos LogInfos.ThreadId
          (World.initial false ())))).sinks
      = (LogStatement.info.run ⟨"t", "7"⟩ "a.cpp" 246 [Arg.pure (Value.str "Some message")]
        (SetLogInfos LogInfos.ThreadId (World.initial false ()))).sinks
    ∧ (LogStatement.info.run ⟨"t", "7"⟩ "a.cpp" 246 [Arg.pure (Value.str "Some message")]
        (SetLogInfos LogInfos.ThreadId (SetLogInfos LogInfos.ThreadId
          (World.initial false ())))).sinks cout = ["[I][7]$ Some message\n"] := by
  have h := C14_setter_idempotence (ρ := Nat) (ε := Unit) (World.initial false ())
    LogInfos.ThreadId 5 LogStatement.info ⟨"t", "7"⟩ "a.cpp" 246
    [Arg.pure (Value.str "Some message")] ⟨"true", fun u => (true, u)⟩
    (Arg.pure (Value.str "")) none
  exact ⟨h.1.2.2.1, (h.2.2 _ _ h.1.2.2.1).1.2.1, by decide⟩

/-- C15: getter/setter contract and frame. For each of the five cells the
getter called after the setter returns the value set, the last of two
writes wins, a setter changes its own cell only (the other four cells, the
streams and the caller's state are as before), and a getter changes
nothing but the trace. -/
theorem C15_getter_setter_frame {σ : Type} (w : World σ) (v v0 : Nat) (s s0 : Stream) :
    ((GetLogType (SetLogType v w)).1 = v
      ∧ (GetLogMessageTypes (SetLogMessageTypes v w)).1 = v
      ∧ (GetLogInfos (SetLogInfos v w)).1 = v
      ∧ (GetLogStream (SetLogStream s w)).1 = s
      ∧ (GetELogStream (SetELogStream s w)).1 = s)
    ∧ ((GetLogType (SetLogType v (SetLogType v0 w))).1 = v
      ∧ (GetLogMessageTypes (SetLogMessageTypes v (SetLogMessageTypes v0 w))).1 = v
      ∧ (GetLogInfos (SetLogInfos v (SetLogInfos v0 w))).1 = v
      ∧ (GetLogStream (SetLogStream s (SetLogStream s0 w))).1 = s
      ∧ (GetELogStream (SetELogStream s (SetELogStream s0 w))).1 = s)
    ∧ ((SetLogType v w).cfg = { w.cfg with log_type_ := v }
      ∧ (SetLogMessageTypes v w).cfg = { w.cfg with log_message_types_ := v }
      ∧ (SetLogInfos v w).cfg = { w.cfg with log_infos_ := v }
      ∧ (SetLogStream s w).cfg = { w.cfg with log_stream_ := s }
      ∧ (SetELogStream s w).cfg = { w.cfg with elog_stream_ := s })
    ∧ (∀ f : Setter, (f.call w).sinks = w.sinks ∧ (f.call w).user = w.user)
    ∧ ((GetLogType w).2.sameAs w ∧ (GetLogMessageTypes w).2.sameAs w
      ∧ (GetLogInfos w).2.sameAs w ∧ (GetLogStream w).2.sameAs w
      ∧ (GetELogStream w).2.sameAs w)
    ∧ ((GetLogType w).1 = w.cfg.log_type_
      ∧ (GetLogMessageTypes w).1 = w.cfg.log_message_types_
      ∧ (GetLogInfos w).1 = w.cfg.log_infos_
      ∧ (GetLogStream w).1 = w.cfg.log_stream_
      ∧ (GetELogStream w).1 = w.cfg.elog_stream_) := by
  refine ⟨⟨rfl, rfl, rfl, rfl, rfl⟩, ⟨rfl, rfl, rfl, rfl, rfl⟩, ⟨rfl, rfl, rfl, rfl, rfl⟩, ?_,
    ⟨⟨rfl, rfl, rfl⟩, ⟨rfl, rfl, rfl⟩, ⟨rfl, rfl, rfl⟩, ⟨rfl, rfl, rfl⟩, ⟨rfl, rfl, rfl⟩⟩,
    ⟨rfl, rfl, rfl, rfl, rfl⟩⟩
  intro f
  cases f <;> exact ⟨rfl, rfl⟩

/-- C16: defaults. Whether or not `NDEBUG` is defined, the initial severity
mask is Info | Warning | Error | FatalError and the initial info mask is
ThreadId | TimeStamp | FileNameWithLine; so at program start each of the
four severities passes the severity gate, each plain statement writes its
line, and the prefix of a record holds the tag followed by all three fields.
The initial build mode is Debug without `NDEBUG` and Release with it; the
primary channel starts on `std::cout`, the error channel on `std::cerr`. -/
theorem C16_defaults {σ : Type} (ndebug : Bool) (env : Env) (out : Stream) (m : Nat)
    (file : String) (line : Int) (args : List (Arg σ)) (u : σ) (st : LogStatement) :
    (Config.initial ndebug).log_message_types_
        = LogMessageType.Info ||| LogMessageType.Warning ||| LogMessageType.Error
            ||| LogMessageType.FatalError
    ∧ (Config.initial ndebug).log_infos_
        = LogInfos.ThreadId ||| LogInfos.TimeStamp ||| LogInfos.FileNameWithLine
    ∧ (IsSeverityEnabled LogMessageType.Info (Config.initial ndebug)
      ∧ IsSeverityEnabled LogMessageType.Warning (Config.initial ndebug)
      ∧ IsSeverityEnabled LogMessageType.Error (Config.initial ndebug)
      ∧ IsSeverityEnabled LogMessageType.FatalError (Config.initial ndebug))
    ∧ (st.plain.run env file line args (World.initial ndebug u)).sinks
          (st.plain.sink (Config.initial ndebug))
        = [st.plain.line env file line args (World.initial ndebug u)]
    ∧ (Logger.ctor env out m file line (World.initial ndebug u)).1.ss_
        = "[" ++ MessageTypeToString m ++ "]" ++ ("[(GMT)" ++ env.time_stamp ++ "]")
            ++ ("[" ++ env.thread_id ++ "]") ++ ("[" ++ file ++ ":" ++ toString line ++ "]")
            ++ "$ "
    ∧ (Config.initial false).log_type_ = LogType.Debug
    ∧ (Config.initial true).log_type_ = LogType.Release
    ∧ (Config.initial ndebug).log_stream_ = cout
    ∧ (Config.initial ndebug).elog_stream_ = cerr := by
  have hp := LogStatement_plain_facts st
  have hsev : ∀ t : LogStatement, IsSeverityEnabled t.severity (Config.initial ndebug) := by
    intro t
    cases t <;> cases ndebug <;> decide
  have hg : st.plain.gateOpen (World.initial ndebug u).cfg := by
    refine ⟨fun h => ?_, hsev _⟩
    rw [hp.2.1] at h; exact absurd h (by decide)
  refine ⟨by cases ndebug <;> decide, by cases ndebug <;> decide,
    ⟨hsev LogStatement.info, hsev LogStatement.warning, hsev LogStatement.error,
      hsev LogStatement.fatal_error⟩, ?_, ?_, rfl, rfl, rfl, rfl⟩
  · exact (LogStatement_written_sinks st.plain env file line args _ hg).1
  · rw [Logger_ctor_fst]
    have h7 : (World.initial ndebug u).cfg.log_infos_ = 7 := by cases ndebug <;> rfl
    simp only [specHeader, h7, MessageTypeToString_eq_specTag, LogInfos.TimeStamp,
      LogInfos.ThreadId, LogInfos.FileNameWithLine]
    simp only [show (7 &&& 2 ≠ 0) = True from by decide, show (7 &&& 1 ≠ 0) = True from by decide,
      show (7 &&& 4 ≠ 0) = True from by decide, if_true]

theorem runRecordSteps_eq {σ : Type} (steps : List RecordStep) (l : Logger) (w : World σ) :
    (runRecordSteps steps (l, w)).1
        = { ss_ := l.ss_ ++ concatText (appendedValues steps), out_str_ := l.out_str_ }
    ∧ (runRecordSteps steps (l, w)).2.sinks = w.sinks
    ∧ (runRecordSteps steps (l, w)).2.user = w.user := by
  induction steps generalizing l w with
  | nil => simp only [runRecordSteps, appendedValues, concatText, String.append_empty, and_self]
  | cons step rest ih =>
    cases step with
    | shl value =>
      simp only [runRecordSteps, appendedValues, concatText, ih, Logger.shl,
        String.append_assoc, and_self]
    | set f =>
      have hf : (f.call w).sinks = w.sinks ∧ (f.call w).user = w.user := by
        cases f <;> exact ⟨rfl, rfl⟩
      simp only [runRecordSteps, appendedValues, ih, hf.1, hf.2, and_self]

/-- C17: creation-time binding. Whatever values are appended and whatever
setters (`SetLogInfos`, `SetLogMessageTypes`, `SetLogType`, `SetLogStream`,
`SetELogStream`) are called, in any order, between the creation of a record
and its destruction, the destructor adds to the stream given at creation,
and to no other, the line made of the prefix computed from the info mask at
creation, the separator, the appended texts and `"\n"`: the same line on the
same stream as when no setter is called. -/
theorem C17_creation_time_binding {σ : Type} (env : Env) (out : Stream) (m : Nat)
    (file : String) (line : Int) (steps : List RecordStep) (w : World σ) :
    ((runRecordSteps steps (Logger.ctor env out m file line w)).1.dtor
        (runRecordSteps steps (Logger.ctor env out m file line w)).2).sinks out
      = w.sinks out
          ++ [specHeader env (MessageTypeToString m) w.cfg.log_infos_ file line ++ "$ "
                ++ concatText (appendedValues steps) ++ "\n"]
    ∧ (∀ s, s ≠ out →
        ((runRecordSteps steps (Logger.ctor env out m file line w)).1.dtor
          (runRecordSteps steps (Logger.ctor env out m file line w)).2).sinks s = w.sinks s)
    ∧ ((runRecordSteps steps (Logger.ctor env out m file line w)).1.dtor
        (runRecordSteps steps (Logger.ctor env out m file line w)).2).sinks
      = (((appendedValues steps).foldl Logger.shl (Logger.ctor env out m file line w).1).dtor
          (Logger.ctor env out m file line w).2).sinks := by
  have hr : (runRecordSteps steps (Logger.ctor env out m file line w)).1
        = { ss_ := (Logger.ctor env out m file line w).1.ss_
                    ++ concatText (appendedValues steps),
            out_str_ := (Logger.ctor env out m file line w).1.out_str_ }
      ∧ (runRecordSteps steps (Logger.ctor env out m file line w)).2.sinks
          = (Logger.ctor env out m file line w).2.sinks
      ∧ (runRecordSteps steps (Logger.ctor env out m file line w)).2.user
          = (Logger.ctor env out m file line w).2.user :=
    runRecordSteps_eq steps (Logger.ctor env out m file line w).1
      (Logger.ctor env out m file line w).2
  have h1 := hr.1
  have h2 := hr.2.1
  rw [Logger_ctor_fst] at h1
  rw [Logger_ctor_snd] at h2
  refine ⟨?_, ?_, ?_⟩
  · simp only [Logger.dtor, World.record, World.write, h1, h2,
      MessageTypeToString_eq_specTag, String.append_assoc, if_true]
  · intro s hs
    simp only [Logger.dtor, World.record, World.write, h1, h2, if_neg hs]
  · simp only [Logger.dtor, World.record, World.write, h1, h2, Logger_foldl_shl,
      Logger_ctor_fst, Logger_ctor_snd]

/-- C17, witness: a record created on stream 5 with info mask
{FileNameWithLine}; before it is destroyed the info mask is set to 0, the
error channel to stream 9 and Error is disabled; the line still carries the
file location and still goes to stream 5. -/
theorem C17_creation_time_binding_witness :
    ((runRecordSteps
        [RecordStep.set (Setter.logInfos 0), RecordStep.shl (Value.str "Message"),
         RecordStep.set (Setter.elogStream 9), RecordStep.set (Setter.logMessageTypes 0),
         RecordStep.shl (Value.str " Test")]
        (Logger.ctor ⟨"t", "7"⟩ 5 LogMessageType.Error "FileName" 32
          (SetLogInfos LogInfos.FileNameWithLine (World.initial false ())))).1.dtor
      (runRecordSteps
        [RecordStep.set (Setter.logInfos 0), RecordStep.shl (Value.str "Message"),
         RecordStep.set (Setter.elogStream 9), RecordStep.set (Setter.logMessageTypes 0),
         RecordStep.shl (Value.str " Test")]
        (Logger.ctor ⟨"t", "7"⟩ 5 LogMessageType.Error "FileName" 32
          (SetLogInfos LogInfos.FileNameWithLine (World.initial false ())))).2).sinks 5
      = ["[E][FileName:32]$ Message Test\n"]
    ∧ ((runRecordSteps
        [RecordStep.set (Setter.logInfos 0), RecordStep.shl (Value.str "Message"),
         RecordStep.set (Setter.elogStream 9), RecordStep.set (Setter.logMessageTypes 0),
         RecordStep.shl (Value.str " Test")]
        (Logger.ctor ⟨"t", "7"⟩ 5 LogMessageType.Error "FileName" 32
          (SetLogInfos LogInfos.FileNameWithLine (World.initial false ())))).1.dtor
      (runRecordSteps
        [RecordStep.set (Setter.logInfos 0), RecordStep.shl (Value.str "Message"),
         RecordStep.set (Setter.elogStream 9), RecordStep.set (Setter.logMessageTypes 0),
         RecordStep.shl (Value.str " Test")]
        (Logger.ctor ⟨"t", "7"⟩ 5 LogMessageType.Error "FileName" 32
          (SetLogInfos LogInfos.FileNameWithLine (World.initial false ())))).2).sinks 9
      = [] := by
  have h := C17_creation_time_binding ⟨"t", "7"⟩ 5 LogMessageType.Error "FileName" 32
    [RecordStep.set (Setter.logInfos 0), RecordStep.shl (Value.str "Message"),
     RecordStep.set (Setter.elogStream 9), RecordStep.set (Setter.logMessageTypes 0),
     RecordStep.shl (Value.str " Test")]
    (SetLogInfos LogInfos.FileNameWithLine (World.initial false ()))
  exact ⟨h.1.trans (by decide), (h.2.1 9 (by decide)).trans rfl⟩

theorem PRIVATE_IF_CONDITION_jump {σ ρ ε : Type} (condition : Condition σ)
    (action : Flow ρ ε) (w : World σ) :
    PRIVATE_IF_CONDITION condition (fun w1 => (action, w1)) w
      = (if (condition.eval w.user).1 then Flow.next else action, condition.after w) := by
  by_cases h : (condition.eval w.user).1 = true
  · simp [PRIVATE_IF_CONDITION, Condition.after, h]
  · have h0 : (condition.eval w.user).1 = false := by simpa using h
    simp [PRIVATE_IF_CONDITION, Condition.after, h0]

/-- C18: the non-logging guards act iff the condition is false and never
write. `CHECK_THROW(c, m)` raises a runtime error with message `m`,
`CHECK_CUSTOM_THROW(c, e)` raises `e`, `CHECK_RETURN(c, v)` returns `v`,
`CHECK_CONTINUE(c)` continues and `CHECK_BREAK(c)` breaks when `c` is false;
when `c` is true control falls through to the next statement; in every case
only the condition is evaluated: streams, configuration and trace of logger
calls are unchanged. -/
theorem C18_non_logging_guards {σ ρ ε : Type} (condition : Condition σ) (message : String)
    (exc : ε) (v : Option ρ) (w : World σ) (rest : List (Stmt σ ρ ε)) :
    ((CHECK_THROW condition message w : Flow ρ ε × World σ)
        = (if (condition.eval w.user).1 then Flow.next
           else Flow.throw (Exception.runtime_error message), condition.after w)
      ∧ (CHECK_CUSTOM_THROW condition exc w : Flow ρ ε × World σ)
        = (if (condition.eval w.user).1 then Flow.next
           else Flow.throw (Exception.custom exc), condition.after w)
      ∧ (CHECK_RETURN condition v w : Flow ρ ε × World σ)
        = (if (condition.eval w.user).1 then Flow.next else Flow.ret v, condition.after w)
      ∧ (CHECK_CONTINUE condition w : Flow ρ ε × World σ)
        = (if (condition.eval w.user).1 then Flow.next else Flow.cont, condition.after w)
      ∧ (CHECK_BREAK condition w : Flow ρ ε × World σ)
        = (if (condition.eval w.user).1 then Flow.next else Flow.brk, condition.after w))
    ∧ (((CHECK_THROW condition message w : Flow ρ ε × World σ).1
            = Flow.throw (Exception.runtime_error message)
          ↔ (condition.eval w.user).1 = false)
      ∧ ((CHECK_CUSTOM_THROW condition exc w : Flow ρ ε × World σ).1
            = Flow.throw (Exception.custom exc)
          ↔ (condition.eval w.user).1 = false)
      ∧ ((CHECK_RETURN condition v w : Flow ρ ε × World σ).1 = Flow.ret v
          ↔ (condition.eval w.user).1 = false)
      ∧ ((CHECK_CONTINUE condition w : Flow ρ ε × World σ).1 = Flow.cont
          ↔ (condition.eval w.user).1 = false)
      ∧ ((CHECK_BREAK condition w : Flow ρ ε × World σ).1 = Flow.brk
          ↔ (condition.eval w.user).1 = false))
    ∧ ((condition.after w).sinks = w.sinks ∧ (condition.after w).cfg = w.cfg
      ∧ (condition.after w).calls = w.calls
      ∧ (condition.after w).user = (condition.eval w.user).2)
    ∧ ((condition.eval w.user).1 = true →
        runBlock (CHECK_THROW condition message :: rest) w
            = runBlock rest (condition.after w)
        ∧ runBlock (CHECK_CUSTOM_THROW condition exc :: rest) w
            = runBlock rest (condition.after w)
        ∧ runBlock (CHECK_RETURN condition v :: rest) w = runBlock rest (condition.after w)
        ∧ runBlock (CHECK_CONTINUE condition :: rest) w = runBlock rest (condition.after w)
        ∧ runBlock (CHECK_BREAK condition :: rest) w = runBlock rest (condition.after w)) := by
  have ht : (CHECK_THROW condition message w : Flow ρ ε × World σ)
      = (if (condition.eval w.user).1 then Flow.next
         else Flow.throw (Exception.runtime_error message), condition.after w) :=
    PRIVATE_IF_CONDITION_jump _ _ _
  have hx : (CHECK_CUSTOM_THROW condition exc w : Flow ρ ε × World σ)
      = (if (condition.eval w.user).1 then Flow.next
         else Flow.throw (Exception.custom exc), condition.after w) :=
    PRIVATE_IF_CONDITION_jump _ _ _
  have hr : (CHECK_RETURN condition v w : Flow ρ ε × World σ)
      = (if (condition.eval w.user).1 then Flow.next else Flow.ret v, condition.after w) :=
    PRIVATE_IF_CONDITION_jump _ _ _
  have hc : (CHECK_CONTINUE condition w : Flow ρ ε × World σ)
      = (if (condition.eval w.user).1 then Flow.next else Flow.cont, condition.after w) :=
    PRIVATE_IF_CONDITION_jump _ _ _
  have hb : (CHECK_BREAK condition w : Flow ρ ε × World σ)
      = (if (condition.eval w.user).1 then Flow.next else Flow.brk, condition.after w) :=
    PRIVATE_IF_CONDITION_jump _ _ _
  refine ⟨⟨ht, hx, hr, hc, hb⟩, ?_, ⟨rfl, rfl, rfl, rfl⟩, ?_⟩
  · rw [ht, hx, hr, hc, hb]
    cases (condition.eval w.user).1 <;> simp
  · intro htrue
    simp only [runBlock, ht, hx, hr, hc, hb, htrue, if_true, and_self]

/-- C18, witness of the specification (`TestThrowExceptions`,
`TestContinueAndBreak`): `CHECK_THROW(false, "Error")` raises a runtime
error whose message is "Error", `CHECK_THROW(true, "Error")` does not, and
`CHECK_RETURN(true); j = 1; CHECK_RETURN(false); j = 2;` ends with `j = 1`. -/
theorem C18_non_logging_guards_witness :
    (CHECK_THROW ⟨"false", fun u => (false, u)⟩ "Error" (World.initial false (0 : Nat))
        : Flow Nat Unit × World Nat).1 = Flow.throw (Exception.runtime_error "Error")
    ∧ (CHECK_THROW ⟨"true", fun u => (true, u)⟩ "Error" (World.initial false (0 : Nat))
        : Flow Nat Unit × World Nat).1 = Flow.next
    ∧ (runBlock
        [CHECK_RETURN ⟨"true", fun u => (true, u)⟩ none,
         fun w => (Flow.next, { w with user := 1 }),
         CHECK_RETURN ⟨"false", fun u => (false, u)⟩ none,
         fun w => (Flow.next, { w with user := 2 })]
        (World.initial false (0 : Nat)) : Flow Nat Unit × World Nat).2.user = 1 :=
  ⟨((C18_non_logging_guards (ρ := Nat) (ε := Unit) ⟨"false", fun u => (false, u)⟩ "Error" ()
      none (World.initial false (0 : Nat)) []).2.1.1).mpr rfl,
   by decide, by decide⟩

/-- C19: the action does not depend on the logging gates. For every logging
guard (fixed or auto-generated message, `return` or `continue`) whose
condition is false, if the severity bit of its statement is not enabled, or
the statement is debug-only and the build mode is Release, then no stream
changes, no `Logger` is constructed, the message is not evaluated (the
caller's state is the one left by the condition) and the guard still ends
with its action, so that no following statement runs. -/
theorem C19_action_independent_of_gates {σ ρ ε : Type} (st : LogStatement) (env : Env)
    (file : String) (line : Int) (condition : Condition σ) (message : Arg σ) (v : Option ρ)
    (w : World σ) (rest : List (Stmt σ ρ ε))
    (hc : (condition.eval w.user).1 = false)
    (hclosed : st.severity &&& w.cfg.log_message_types_ = 0
      ∨ (st.debugOnly = true ∧ w.cfg.log_type_ = LogType.Release)) :
    ((CHECK_LOG_RETURN st env file line condition message v w : Flow ρ ε × World σ)
        = (Flow.ret v, { w with user := (condition.eval w.user).2,
                                calls := w.calls ++ st.closedCalls w.cfg })
      ∧ (CHECK_LOG_CONTINUE st env file line condition message w : Flow ρ ε × World σ)
        = (Flow.cont, { w with user := (condition.eval w.user).2,
                               calls := w.calls ++ st.closedCalls w.cfg })
      ∧ (CHECK_LOG_AUTO_RETURN st env file line condition v w : Flow ρ ε × World σ)
        = (Flow.ret v, { w with user := (condition.eval w.user).2,
                                calls := w.calls ++ st.closedCalls w.cfg })
      ∧ (CHECK_LOG_AUTO_CONTINUE st env file line condition w : Flow ρ ε × World σ)
        = (Flow.cont, { w with user := (condition.eval w.user).2,
                               calls := w.calls ++ st.closedCalls w.cfg }))
    ∧ Call.LoggerCtor ∉ st.closedCalls w.cfg
    ∧ (runBlock (CHECK_LOG_RETURN st env file line condition message v :: rest) w).1
        = Flow.ret v
    ∧ (runBlock (CHECK_LOG_CONTINUE st env file line condition message :: rest) w).1
        = Flow.cont
    ∧ (runBlock (CHECK_LOG_AUTO_RETURN st env file line condition v :: rest) w).1
        = Flow.ret v
    ∧ (runBlock (CHECK_LOG_AUTO_CONTINUE st env file line condition :: rest) w).1
        = Flow.cont := by
  have hg : ¬ st.gateOpen (condition.after w).cfg := by
    intro h
    rcases hclosed with h0 | ⟨hd, hr⟩
    · exact h.2 h0
    · have hdbg : w.cfg.log_type_ = LogType.Debug := h.1 hd
      rw [hr] at hdbg
      exact absurd hdbg (by decide)
  have hrun : ∀ msg : Arg σ, st.run env file line [msg] (condition.after w)
      = { w with user := (condition.eval w.user).2,
                 calls := w.calls ++ st.closedCalls w.cfg } := by
    intro msg
    rw [LogStatement_run_eq, if_neg hg]
    rfl
  have h1 : (CHECK_LOG_RETURN st env file line condition message v w : Flow ρ ε × World σ)
      = (Flow.ret v, { w with user := (condition.eval w.user).2,
                              calls := w.calls ++ st.closedCalls w.cfg }) := by
    rw [CHECK_LOG_RETURN_eq, PRIVATE_CHECK_false _ _ _ _ _ hc, hrun]
  have h2 : (CHECK_LOG_CONTINUE st env file line condition message w : Flow ρ ε × World σ)
      = (Flow.cont, { w with user := (condition.eval w.user).2,
                             calls := w.calls ++ st.closedCalls w.cfg }) := by
    rw [CHECK_LOG_CONTINUE_eq, PRIVATE_CHECK_false _ _ _ _ _ hc, hrun]
  have h3 : (CHECK_LOG_AUTO_RETURN st env file line condition v w : Flow ρ ε × World σ)
      = (Flow.ret v, { w with user := (condition.eval w.user).2,
                              calls := w.calls ++ st.closedCalls w.cfg }) := by
    rw [CHECK_LOG_AUTO_RETURN_eq, PRIVATE_CHECK_false _ _ _ _ _ hc, hrun]
  have h4 : (CHECK_LOG_AUTO_CONTINUE st env file line condition w : Flow ρ ε × World σ)
      = (Flow.cont, { w with user := (condition.eval w.user).2,
                             calls := w.calls ++ st.closedCalls w.cfg }) := by
    rw [CHECK_LOG_AUTO_CONTINUE_eq, PRIVATE_CHECK_false _ _ _ _ _ hc, hrun]
  refine ⟨⟨h1, h2, h3, h4⟩, ?_, ?_, ?_, ?_, ?_⟩
  · unfold LogStatement.closedCalls
    split_ifs <;> decide
  · simp only [runBlock, h1]
  · simp only [runBlock, h2]
  · simp only [runBlock, h3]
  · simp only [runBlock, h4]

/-- C19, witness: with only Error enabled,
`CHECK_ILOG_RETURN(false, e, 12)` (where evaluating `e` would increment a
counter) followed by `return 2` returns 12, writes nothing and leaves the
counter at 0. -/
theorem C19_action_independent_of_gates_witness :
    ((⟨"false", fun n => (false, n)⟩ : Condition Nat).eval
        (SetLogMessageTypes LogMessageType.Error (World.initial false (0 : Nat))).user).1 = false
    ∧ (LogStatement.info.severity
        &&& (SetLogMessageTypes LogMessageType.Error
              (World.initial false (0 : Nat))).cfg.log_message_types_ = 0)
    ∧ (runBlock
        [CHECK_LOG_RETURN LogStatement.info ⟨"t", "7"⟩ "a.cpp" 366
           ⟨"false", fun n => (false, n)⟩ (fun n => (Value.str "Some message2", n + 1))
           (some 12),
         fun w => (Flow.ret (some 2), w)]
        (SetLogMessageTypes LogMessageType.Error (World.initial false (0 : Nat)))
          : Flow Nat Unit × World Nat).1 = Flow.ret (some 12)
    ∧ (CHECK_LOG_RETURN LogStatement.info ⟨"t", "7"⟩ "a.cpp" 366
        ⟨"false", fun n => (false, n)⟩ (fun n => (Value.str "Some message2", n + 1)) (some 12)
        (SetLogMessageTypes LogMessageType.Error (World.initial false (0 : Nat)))
          : Flow Nat Unit × World Nat).2.user = 0
    ∧ (CHECK_LOG_RETURN LogStatement.info ⟨"t", "7"⟩ "a.cpp" 366
        ⟨"false", fun n => (false, n)⟩ (fun n => (Value.str "Some message2", n + 1)) (some 12)
        (SetLogMessageTypes LogMessageType.Error (World.initial false (0 : Nat)))
          : Flow Nat Unit × World Nat).2.sinks cout = [] := by
  have h := C19_action_independent_of_gates (ρ := Nat) (ε := Unit) LogStatement.info
    ⟨"t", "7"⟩ "a.cpp" 366 ⟨"false", fun n => (false, n)⟩
    (fun n => (Value.str "Some message2", n + 1)) (some 12)
    (SetLogMessageTypes LogMessageType.Error (World.initial false (0 : Nat)))
    [fun w => (Flow.ret (some 2), w)] rfl (Or.inl (by decide))
  refine ⟨rfl, by decide, h.2.2.1, ?_, ?_⟩
  · rw [h.1.1]; rfl
  · rw [h.1.1]; rfl

theorem specHeader_land_seven (env : Env) (tag : String) (mask : Nat) (file : String)
    (line : Int) :
    specHeader env tag (mask &&& 0x7) file line = specHeader env tag mask file line := by
  have h2 : mask &&& 7 &&& 2 = mask &&& 2 := by
    rw [Nat.land_assoc]; rfl
  have h1 : mask &&& 7 &&& 1 = mask &&& 1 := by
    rw [Nat.land_assoc]; rfl
  have h4 : mask &&& 7 &&& 4 = mask &&& 4 := by
    rw [Nat.land_assoc]; rfl
  simp only [specHeader, LogInfos.TimeStamp, LogInfos.ThreadId, LogInfos.FileNameWithLine, h2,
    h1, h4]

theorem specHeader_without_fields (env : Env) (tag : String) (mask : Nat) (file : String)
    (line : Int) (h1 : mask &&& LogInfos.ThreadId = 0) (h2 : mask &&& LogInfos.TimeStamp = 0)
    (h4 : mask &&& LogInfos.FileNameWithLine = 0) :
    specHeader env tag mask file line = "[" ++ tag ++ "]" := by
  simp only [specHeader, h1, h2, h4, ne_eq, not_true_eq_false, if_false, String.append_empty]

theorem Logger_line_sinks {σ : Type} (env : Env) (out : Stream) (m : Nat) (file : String)
    (line : Int) (vs : List Value) (w : World σ) :
    ((vs.foldl Logger.shl (Logger.ctor env out m file line w).1).dtor
        (Logger.ctor env out m file line w).2).sinks
      = fun s =>
          if s = out then
            w.sinks s ++ [specHeader env (specTag m) w.cfg.log_infos_ file line ++ "$ "
              ++ concatText vs ++ "\n"]
          else w.sinks s := by
  simp only [Logger_foldl_shl, Logger_ctor_fst, Logger_ctor_snd, Logger.dtor, World.record,
    World.write, String.append_assoc]

theorem LogStatement_run_sinks_of_header {σ : Type} (st : LogStatement) (env : Env)
    (file : String) (line : Int) (args : List (Arg σ)) (w : World σ) (mask1 mask2 : Nat)
    (h : specHeader env (specTag st.severity) mask1 file line
      = specHeader env (specTag st.severity) mask2 file line) :
    (st.run env file line args (SetLogInfos mask1 w)).sinks
      = (st.run env file line args (SetLogInfos mask2 w)).sinks := by
  rw [LogStatement_run_eq, LogStatement_run_eq]
  have hgate : st.gateOpen (SetLogInfos mask1 w).cfg ↔ st.gateOpen (SetLogInfos mask2 w).cfg :=
    Iff.rfl
  by_cases hg : st.gateOpen (SetLogInfos mask1 w).cfg
  · rw [if_pos hg, if_pos (hgate.mp hg)]
    simp only [LogStatement.written, LogStatement.line, specLine, SetLogInfos, h,
      LogStatement.sink]
  · rw [if_neg hg, if_neg (fun h2 => hg (hgate.mpr h2))]
    rfl

/-- C20: only the three defined info-field bits matter. For every info mask,
severity value, file, line and appended values, the streams after a record
is created, appended to and destroyed under the mask are those obtained
under the mask `& 0x7`, and so it is for each of the seven log statements;
in particular a mask that holds none of ThreadId (0x1), TimeStamp (0x2) and
FileNameWithLine (0x4), zero or not, yields the line `"[Tag]$ " + message +
"\n"`, as mask 0 does. -/
theorem C20_only_three_info_bits {σ : Type} (env : Env) (out : Stream) (m : Nat)
    (file : String) (line : Int) (vs : List Value) (st : LogStatement)
    (args : List (Arg σ)) (mask : Nat) (w : World σ) :
    ((vs.foldl Logger.shl (Logger.ctor env out m file line (SetLogInfos mask w)).1).dtor
        (Logger.ctor env out m file line (SetLogInfos mask w)).2).sinks
      = ((vs.foldl Logger.shl
            (Logger.ctor env out m file line (SetLogInfos (mask &&& 0x7) w)).1).dtor
          (Logger.ctor env out m file line (SetLogInfos (mask &&& 0x7) w)).2).sinks
    ∧ (st.run env file line args (SetLogInfos mask w)).sinks
      = (st.run env file line args (SetLogInfos (mask &&& 0x7) w)).sinks
    ∧ (mask &&& LogInfos.ThreadId = 0 → mask &&& LogInfos.TimeStamp = 0 →
        mask &&& LogInfos.FileNameWithLine = 0 →
        ((vs.foldl Logger.shl (Logger.ctor env out m file line (SetLogInfos mask w)).1).dtor
            (Logger.ctor env out m file line (SetLogInfos mask w)).2).sinks out
          = w.sinks out ++ ["[" ++ MessageTypeToString m ++ "]$ " ++ concatText vs ++ "\n"]
        ∧ ((vs.foldl Logger.shl (Logger.ctor env out m file line (SetLogInfos mask w)).1).dtor
            (Logger.ctor env out m file line (SetLogInfos mask w)).2).sinks
          = ((vs.foldl Logger.shl (Logger.ctor env out m file line (SetLogInfos 0 w)).1).dtor
              (Logger.ctor env out m file line (SetLogInfos 0 w)).2).sinks
        ∧ (st.run env file line args (SetLogInfos mask w)).sinks
          = (st.run env file line args (SetLogInfos 0 w)).sinks) := by
  have hsep : ∀ x : String, "]" ++ ("$ " ++ x) = "]$ " ++ x := fun x => by
    rw [← String.append_assoc]; rfl
  have hcfg : ∀ k : Nat, (SetLogInfos k w).cfg.log_infos_ = k := fun _ => rfl
  have hsinks : ∀ k : Nat, (SetLogInfos k w).sinks = w.sinks := fun _ => rfl
  refine ⟨?_, ?_, ?_⟩
  · rw [Logger_line_sinks, Logger_line_sinks]
    simp only [hcfg, hsinks, specHeader_land_seven]
  · exact LogStatement_run_sinks_of_header st env file line args w _ _
      (specHeader_land_seven env _ mask file line).symm
  · intro h1 h2 h4
    have hzero : ∀ tag : String, specHeader env tag 0 file line = "[" ++ tag ++ "]" :=
      fun tag => specHeader_without_fields env tag 0 file line (Nat.zero_and _)
        (Nat.zero_and _) (Nat.zero_and _)
    have hmask : ∀ tag : String, specHeader env tag mask file line = "[" ++ tag ++ "]" :=
      fun tag => specHeader_without_fields env tag mask file line h1 h2 h4
    refine ⟨?_, ?_, ?_⟩
    · rw [Logger_line_sinks]
      simp only [hcfg, hsinks, hmask, if_true, MessageTypeToString_eq_specTag,
        String.append_assoc, hsep]
    · rw [Logger_line_sinks, Logger_line_sinks]
      simp only [hcfg, hsinks, hmask, hzero]
    · exact LogStatement_run_sinks_of_header st env file line args w _ _
        ((hmask _).trans (hzero _).symm)

/-- C20, witness: info mask 0x8 (no defined bit) gives the bare line
`"[E]$ Message Test\n"`, and mask 0xC gives the line of mask 0x4. -/
theorem C20_only_three_info_bits_witness :
    (8 &&& LogInfos.ThreadId = 0 ∧ 8 &&& LogInfos.TimeStamp = 0
      ∧ 8 &&& LogInfos.FileNameWithLine = 0)
    ∧ (([Value.str "Message Test"].foldl Logger.shl
          (Logger.ctor ⟨"t", "7"⟩ 5 LogMessageType.Error "FileName" 32
            (SetLogInfos 8 (World.initial false ()))).1).dtor
        (Logger.ctor ⟨"t", "7"⟩ 5 LogMessageType.Error "FileName" 32
            (SetLogInfos 8 (World.initial false ()))).2).sinks 5 = ["[E]$ Message Test\n"]
    ∧ (([Value.str "Message Test"].foldl Logger.shl
          (Logger.ctor ⟨"t", "7"⟩ 5 LogMessageType.Error "FileName" 32
            (SetLogInfos 12 (World.initial false ()))).1).dtor
        (Logger.ctor ⟨"t", "7"⟩ 5 LogMessageType.Error "FileName" 32
            (SetLogInfos 12 (World.initial false ()))).2).sinks 5
        = ["[E][FileName:32]$ Message Test\n"] := by
  have h := C20_only_three_info_bits ⟨"t", "7"⟩ 5 LogMessageType.Error "FileName" 32
    [Value.str "Message Test"] LogStatement.error [Arg.pure (Value.str "Message Test")] 8
    (World.initial false ())
  exact ⟨by decide, ((h.2.2 (by decide) (by decide) (by decide)).1).trans (by decide),
    by decide⟩

theorem countNewlines_append (a b : String) :
    countNewlines (a ++ b) = countNewlines a + countNewlines b := by
  simp only [countNewlines, String.data_append, List.count_append]

theorem countNewlines_specTag (m : Nat) : countNewlines (specTag m) = 0 := by
  unfold specTag
  split_ifs <;> decide

/-- The line written under info mask 0 holds one line terminator more than
the appended text. -/
theorem countNewlines_bare_line (m : Nat) (text : String) :
    countNewlines ("[" ++ MessageTypeToString m ++ "]$ " ++ text ++ "\n")
      = 1 + countNewlines text := by
  have h1 : countNewlines "[" = 0 := by decide
  have h2 : countNewlines "]$ " = 0 := by decide
  have h3 : countNewlines "\n" = 1 := by decide
  simp only [countNewlines_append, MessageTypeToString_eq_specTag, countNewlines_specTag, h1,
    h2, h3]
  omega

/-- C21: appended text is written verbatim, without escaping. With info mask
0, for every severity value and every list of appended values, the line a
record writes is `"[" + tag + "]$ " + text + "\n"` with the text of the
values unchanged, so the number of `"\n"` characters written equals 1 + the
number of `"\n"` characters in the text: exactly one when the text holds
none, more than one when it holds a line terminator. The same holds of each
of the seven log statements when its gates are open. -/
theorem C21_text_written_verbatim {σ : Type} (env : Env) (out : Stream) (m : Nat)
    (file : String) (line : Int) (vs : List Value) (st : LogStatement)
    (args : List (Arg σ)) (w : World σ) (h0 : w.cfg.log_infos_ = 0) :
    ((vs.foldl Logger.shl (Logger.ctor env out m file line w).1).dtor
        (Logger.ctor env out m file line w).2).sinks out
      = w.sinks out ++ ["[" ++ MessageTypeToString m ++ "]$ " ++ concatText vs ++ "\n"]
    ∧ countNewlines ("[" ++ MessageTypeToString m ++ "]$ " ++ concatText vs ++ "\n")
        = 1 + countNewlines (concatText vs)
    ∧ (countNewlines (concatText vs) = 0 →
        countNewlines ("[" ++ MessageTypeToString m ++ "]$ " ++ concatText vs ++ "\n") = 1)
    ∧ (0 < countNewlines (concatText vs) →
        1 < countNewlines ("[" ++ MessageTypeToString m ++ "]$ " ++ concatText vs ++ "\n"))
    ∧ (st.gateOpen w.cfg →
        (st.run env file line args w).sinks (st.sink w.cfg)
          = w.sinks (st.sink w.cfg)
              ++ ["[" ++ MessageTypeToString st.severity ++ "]$ "
                    ++ concatText (evalArgs args w.user).1 ++ "\n"]
        ∧ countNewlines ("[" ++ MessageTypeToString st.severity ++ "]$ "
              ++ concatText (evalArgs args w.user).1 ++ "\n")
            = 1 + countNewlines (concatText (evalArgs args w.user).1)) := by
  have hsep : ∀ x : String, "]" ++ ("$ " ++ x) = "]$ " ++ x := fun x => by
    rw [← String.append_assoc]; rfl
  have hhead : ∀ tag : String, specHeader env tag w.cfg.log_infos_ file line = "[" ++ tag ++ "]" :=
    fun tag => by
      rw [h0]
      exact specHeader_without_fields env tag 0 file line (Nat.zero_and _) (Nat.zero_and _)
        (Nat.zero_and _)
  have hcount := countNewlines_bare_line m (concatText vs)
  refine ⟨?_, hcount, ?_, ?_, ?_⟩
  · rw [Logger_line_sinks]
    simp only [hhead, if_true, MessageTypeToString_eq_specTag, String.append_assoc, hsep]
  · intro hnone
    rw [hcount, hnone]
  · intro hsome
    rw [hcount]
    omega
  · intro hg
    refine ⟨?_, countNewlines_bare_line _ _⟩
    rw [(LogStatement_written_sinks st env file line args w hg).1]
    simp only [LogStatement.line, specLine, hhead, MessageTypeToString_eq_specTag,
      String.append_assoc, hsep]

/-- C21, witness: with info mask 0, `LOG_INFO << "a\nb"` writes
`"[I]$ a\nb\n"`, two physical lines, and `LOG_INFO << "ab"` writes one. -/
theorem C21_text_written_verbatim_witness :
    (SetLogInfos 0 (World.initial false ())).cfg.log_infos_ = 0
    ∧ LogStatement.info.gateOpen (SetLogInfos 0 (World.initial false ())).cfg
    ∧ (LogStatement.info.run ⟨"t", "7"⟩ "a.cpp" 10 [Arg.pure (Value.str "a\nb")]
        (SetLogInfos 0 (World.initial false ()))).sinks cout = ["[I]$ a\nb\n"]
    ∧ countNewlines "[I]$ a\nb\n" = 2
    ∧ (LogStatement.info.run ⟨"t", "7"⟩ "a.cpp" 11 [Arg.pure (Value.str "ab")]
        (SetLogInfos 0 (World.initial false ()))).sinks cout = ["[I]$ ab\n"]
    ∧ countNewlines "[I]$ ab\n" = 1 := by
  have h := C21_text_written_verbatim ⟨"t", "7"⟩ 5 LogMessageType.Info "a.cpp" 10
    [Value.str "a\nb"] LogStatement.info [Arg.pure (Value.str "a\nb")]
    (SetLogInfos 0 (World.initial false ())) rfl
  exact ⟨rfl, by decide, ((h.2.2.2.2 (by decide)).1).trans (by decide), by decide, by decide,
    by decide⟩

end SimpleLog

